import Mathlib

/-!
Shallow embedding of the azure-cost-exporter core (`app/exporter.py`):
credential resolution, cost-query construction, per-row metric mapping with
the merge-minor-cost policy, and the fetch orchestration over tenants and
subscriptions.  Python dictionaries are modelled as insertion-ordered
association lists, Python floats as rationals, and Python exceptions as an
explicit error type threaded through `Except`.
-/

set_option maxHeartbeats 1000000

namespace AzureCostExporter

/-- A Python `dict` with string keys and values: an insertion-ordered
association list without duplicate keys. -/
abbrev Dict := List (String × String)

/-- `d[k] = v` on a Python dict: overwrite in place if the key exists,
otherwise append at the end. -/
def pyDictSet (d : Dict) (k v : String) : Dict :=
  if d.any (fun p => p.1 = k) then
    d.map (fun p => if p.1 = k then (k, v) else p)
  else
    d ++ [(k, v)]

/-- `d.update(e)` on Python dicts: fold `pyDictSet` over the entries of `e`. -/
def pyDictUpdate (d e : Dict) : Dict :=
  e.foldl (fun acc p => pyDictSet acc p.1 p.2) d

/-- `d.get(k)` on a Python dict. -/
def pyDictGet (d : Dict) (k : String) : Option String :=
  (d.find? (fun p => p.1 = k)).map (fun p => p.2)

/-- Values occurring in rows returned by the billing API: numbers (anything
Python's `float` accepts) or non-numeric strings. -/
inductive RVal where
  | num (q : ℚ)
  | str (s : String)
deriving DecidableEq

/-- The Python exceptions the exporter can raise or catch. -/
inductive PyErr where
  | indexError
  | valueError (msg : String)
  | keyError (k : String)
  | httpResponseError (reason : String)
deriving DecidableEq

/-- `float(v)`: numbers convert, non-numeric strings raise `ValueError`. -/
def pyFloat : RVal → Except PyErr ℚ
  | .num q => .ok q
  | .str s => .error (.valueError ("could not convert string to float: " ++ s))

/-- `row[i]` on a Python list: `IndexError` when out of range. -/
def pyGet (row : List RVal) (i : Nat) : Except PyErr RVal :=
  match row.get? i with
  | some v => .ok v
  | none => .error .indexError

/-- Rendering of a row value used as a metric label value. -/
def rvalStr : RVal → String
  | .num q => toString q
  | .str s => s

/-- Python `v == n` between a row value and an integer date key. -/
def rvalEqInt (v : RVal) (n : Nat) : Bool :=
  match v with
  | .num q => q = (n : ℚ)
  | .str _ => false

/-! ### Dates (`datetime.today()`, `relativedelta(days=1)`, `strftime` ) -/

/-- A calendar date. -/
structure Date where
  year : Nat
  month : Nat
  day : Nat
deriving DecidableEq

/-- Gregorian leap-year test. -/
def isLeap (y : Nat) : Bool :=
  (y % 4 == 0 && y % 100 != 0) || y % 400 == 0

/-- Number of days in a month of a given year. -/
def daysInMonth (y m : Nat) : Nat :=
  if m = 2 then (if isLeap y then 29 else 28)
  else if m = 4 ∨ m = 6 ∨ m = 9 ∨ m = 11 then 30
  else 31

/-- `d - relativedelta(days=1)`: the previous calendar day. -/
def prevDay (d : Date) : Date :=
  if 1 < d.day then ⟨d.year, d.month, d.day - 1⟩
  else if 1 < d.month then ⟨d.year, d.month - 1, daysInMonth d.year (d.month - 1)⟩
  else ⟨d.year - 1, 12, 31⟩

/-- `int(d.strftime("%Y%m%d"))`. -/
def dateInt (d : Date) : Nat := d.year * 10000 + d.month * 100 + d.day

/-- Days in the months of year `y` strictly before month `m` (months are
1-based). -/
def daysBeforeMonth (y : Nat) : Nat → Nat
  | 0 => 0
  | m + 1 => if m = 0 then 0 else daysBeforeMonth y m + daysInMonth y m

/-- Number of leap years strictly before year `y`. -/
def leapsBefore (y : Nat) : Nat := (y - 1) / 4 - (y - 1) / 100 + (y - 1) / 400

/-- A linear day count for Gregorian dates, used to measure window lengths. -/
def dateToDays (d : Date) : Nat :=
  365 * d.year + leapsBefore d.year + daysBeforeMonth d.year d.month + d.day

/-- A well-formed calendar date. -/
def Date.valid (d : Date) : Prop :=
  1 ≤ d.month ∧ d.month ≤ 12 ∧ 1 ≤ d.day ∧ d.day ≤ daysInMonth d.year d.month

instance (d : Date) : Decidable d.valid := by
  unfold Date.valid; infer_instance

/-! ### Configuration records -/

/-- One entry of `group_by["groups"]`. -/
structure Group where
  type : String
  name : String
  label_name : String
deriving DecidableEq

/-- `group_by["merge_minor_cost"]`. -/
structure MergeMinorCost where
  enabled : Bool
  threshold : ℚ
  tag_value : String
deriving DecidableEq

/-- The `group_by` configuration block. -/
structure GroupBy where
  enabled : Bool
  groups : List Group
  merge_minor_cost : MergeMinorCost
deriving DecidableEq

/-- One credential record of a tenant's list in the secrets file. -/
structure Cred where
  SubscriptionId : String
  client_id : String
  client_secret : String
deriving DecidableEq

/-- `self.secrets[tenant_id]`: raises `KeyError` when the tenant is absent. -/
def secretsGet (secrets : List (String × List Cred)) (tenant_id : String) :
    Except PyErr (List Cred) :=
  match secrets.find? (fun p => p.1 = tenant_id) with
  | some p => .ok p.2
  | none => .error (.keyError tenant_id)

/-- `MetricExporter.init_azure_client`: find the tenant's credential record
matching the subscription id; raise `ValueError` when none matches.  The
model returns the credential record standing for the constructed client. -/
def init_azure_client (secrets : List (String × List Cred))
    (tenant_id subscription_id : String) : Except PyErr Cred := do
  let subs ← secretsGet secrets tenant_id
  match subs.find? (fun sub => sub.SubscriptionId = subscription_id) with
  | some credentials => .ok credentials
  | none =>
    .error (.valueError ("Credentials for subscription " ++ subscription_id ++ " not found"))

/-! ### Query construction (`query_azure_cost_explorer`) -/

/-- `datetime(year, month, day, tzinfo=timezone.utc)`: hour, minute and
second are truncated to zero. -/
structure DateTimeUTC where
  year : Nat
  month : Nat
  day : Nat
  hour : Nat
  minute : Nat
  second : Nat
deriving DecidableEq

/-- Midnight UTC of a calendar date. -/
def midnightUTC (d : Date) : DateTimeUTC := ⟨d.year, d.month, d.day, 0, 0, 0⟩

/-- The `QueryTimePeriod` of the cost query. -/
structure QueryTimePeriod where
  from_property : DateTimeUTC
  to_property : DateTimeUTC
deriving DecidableEq

/-- One named aggregation of the query dataset. -/
structure AggregationSpec where
  name : String
  function : String
deriving DecidableEq

/-- The `dataset` part of the cost query. -/
structure QueryDataset where
  granularity : String
  aggregation : List (String × AggregationSpec)
  grouping : List (String × String)
deriving DecidableEq

/-- The `QueryDefinition` sent to the billing API. -/
structure QueryDefinition where
  type : String
  dataset : QueryDataset
  timeframe : String
  time_period : QueryTimePeriod
deriving DecidableEq

/-- The grouping dimensions of the query: one `(type, name)` pair per
configured group, in order, when grouping is enabled. -/
def queryGroups (group_by : GroupBy) : List (String × String) :=
  if group_by.enabled then group_by.groups.map (fun g => (g.type, g.name)) else []

/-- The pure construction part of `query_azure_cost_explorer`. -/
def buildQueryDefinition (group_by : GroupBy) (start_date end_date : Date) :
    QueryDefinition :=
  { type := "ActualCost"
    dataset :=
      { granularity := "Daily"
        aggregation := [("totalCostUSD", { name := "CostUSD", function := "Sum" })]
        grouping := queryGroups group_by }
    timeframe := "Custom"
    time_period :=
      { from_property := midnightUTC start_date
        to_property := midnightUTC end_date } }

/-- The billing API as a black-box oracle: scope and query in, rows (the
`"rows"` field of the response) or provider error out. -/
abbrev Api := String → QueryDefinition → Except PyErr (List (List RVal))

/-- `MetricExporter.query_azure_cost_explorer`: build the query for the
subscription's scope and issue it against the billing API. -/
def query_azure_cost_explorer (api : Api) (subscription : String)
    (group_by : GroupBy) (start_date end_date : Date) :
    Except PyErr (List (List RVal)) :=
  api ("/subscriptions/" ++ subscription) (buildQueryDefinition group_by start_date end_date)

/-! ### Result mapping (`expose_metrics`) -/

/-- The loop `for i in range(len(groups)): value = result[i + 2]; ...`
reading one group value per configured group, starting at row offset 2,
updating the `group_key_values` dict. -/
def collectGroupValues : List Group → Nat → List RVal → Dict → Except PyErr Dict
  | [], _, _, acc => .ok acc
  | g :: gs, i, result, acc => do
    let v ← pyGet result i
    collectGroupValues gs (i + 1) result (pyDictSet acc g.label_name (rvalStr v))

/-- The dict built in the merged-minor-cost branch: every configured group's
label name mapped to the merge policy's `tag_value`. -/
def tagDict (group_by : GroupBy) : Dict :=
  group_by.groups.foldl
    (fun acc g => pyDictUpdate acc [(g.label_name, group_by.merge_minor_cost.tag_value)]) []

/-- `MetricExporter.expose_metrics` for one cost row: returns the list of
`(label_set, value)` gauge writes the call performs, in order, or the Python
exception it raises.  `merged_minor_cost` starts at `0` on every call and
receives at most the current row's cost before the `> 0` flush check. -/
def expose_metrics (group_by : GroupBy) (azure_account : Dict) (result : List RVal) :
    Except PyErr (List (Dict × ℚ)) := do
  let v0 ← pyGet result 0
  let cost ← pyFloat v0
  let labels := pyDictUpdate [("ChargeType", "ActualCost")] azure_account
  if group_by.enabled then
    let group_key_values ← collectGroupValues group_by.groups 2 result []
    if group_by.merge_minor_cost.enabled ∧ cost < group_by.merge_minor_cost.threshold then
      if 0 < cost then
        pure [(pyDictUpdate labels (tagDict group_by), cost)]
      else
        pure []
    else
      pure [(pyDictUpdate labels group_key_values, cost)]
  else
    pure [(labels, cost)]

/-- The row loop of `fetch`: skip rows whose date field differs from the
integer date key, map the rest through `expose_metrics`. -/
def processRows (group_by : GroupBy) (account : Dict) (dateKey : Nat) :
    List (List RVal) → Except PyErr (List (Dict × ℚ))
  | [] => .ok []
  | result :: rest => do
    let d ← pyGet result 1
    if rvalEqInt d dateKey then do
      let es ← expose_metrics group_by account result
      let more ← processRows group_by account dateKey rest
      pure (es ++ more)
    else
      processRows group_by account dateKey rest

/-! ### Fetch orchestration (`fetch`) -/

/-- `azure_account["TenantId"]`: `KeyError` when the key is missing. -/
def dictGetE (d : Dict) (k : String) : Except PyErr String :=
  match pyDictGet d k with
  | some v => .ok v
  | none => .error (.keyError k)

/-- The per-subscription account derivation of `fetch`: copy the tenant's
base account, overwrite `Subscription`, then scan the full target list for
the first account declaring this subscription and take its
`EnvironmentName` (defaulting to `"DefaultEnv"` when that account lacks the
key); when no account matches, the copied account is left unchanged. -/
def resolveAccount (targets : List Dict) (azure_account : Dict)
    (subscription_id : String) : Dict :=
  let current := pyDictSet azure_account "Subscription" subscription_id
  match targets.find?
      (fun t => (pyDictGet t "Subscription").getD "" = subscription_id) with
  | some t =>
    pyDictSet current "EnvironmentName" ((pyDictGet t "EnvironmentName").getD "DefaultEnv")
  | none => current

/-- Observable outcome of (part of) a fetch cycle: gauge writes in order,
`logging.error` records as (subscription, reason), one `passes` entry per
tenant-level pass as (tenant, base account), and one `queried` entry per
subscription attempted as (tenant, subscription). -/
structure FetchOut where
  emits : List (Dict × ℚ)
  logs : List (String × String)
  passes : List (String × Dict)
  queried : List (String × String)
deriving DecidableEq

/-- Concatenation of fetch outcomes. -/
def FetchOut.append (a b : FetchOut) : FetchOut :=
  ⟨a.emits ++ b.emits, a.logs ++ b.logs, a.passes ++ b.passes, a.queried ++ b.queried⟩

/-- Empty fetch outcome. -/
def FetchOut.empty : FetchOut := ⟨[], [], [], []⟩

/-- Processing of one subscription inside `fetch`: derive the working
account, initialise the client (outside the `try`), then inside the `try`
query the billing API over the window `[prevDay today, today]` and map the
rows dated `int(start_date.strftime("%Y%m%d"))`; `except HttpResponseError`
logs and continues, any other exception propagates. -/
def processSub (targets : List Dict) (secrets : List (String × List Cred))
    (group_by : GroupBy) (today : Date) (api : Api)
    (azure_account : Dict) (tenant_id : String) (sub : Cred) :
    Except PyErr FetchOut := do
  let subscription_id := sub.SubscriptionId
  let current := resolveAccount targets azure_account subscription_id
  let _client ← init_azure_client secrets tenant_id subscription_id
  let attempt : Except PyErr (List (Dict × ℚ)) := do
    let rows ← query_azure_cost_explorer api subscription_id group_by (prevDay today) today
    processRows group_by current (dateInt (prevDay today)) rows
  match attempt with
  | .ok emits => .ok ⟨emits, [], [], [(tenant_id, subscription_id)]⟩
  | .error (.httpResponseError reason) =>
    .ok ⟨[], [(subscription_id, reason)], [], [(tenant_id, subscription_id)]⟩
  | .error e => .error e

/-- The `for sub in self.secrets[tenant_id]` loop of `fetch`. -/
def processTenantSubs (targets : List Dict) (secrets : List (String × List Cred))
    (group_by : GroupBy) (today : Date) (api : Api)
    (azure_account : Dict) (tenant_id : String) :
    List Cred → Except PyErr FetchOut
  | [] => .ok FetchOut.empty
  | s :: rest => do
    let a ← processSub targets secrets group_by today api azure_account tenant_id s
    let b ← processTenantSubs targets secrets group_by today api azure_account tenant_id rest
    pure (a.append b)

/-- The target-account loop of `fetch`, carrying the `processed_tenants`
set. -/
def fetchGo (targets0 : List Dict) (secrets : List (String × List Cred))
    (group_by : GroupBy) (today : Date) (api : Api) :
    List Dict → List String → Except PyErr FetchOut
  | [], _ => .ok FetchOut.empty
  | acct :: rest, processed => do
    let tenant_id ← dictGetE acct "TenantId"
    if tenant_id ∈ processed then
      fetchGo targets0 secrets group_by today api rest processed
    else do
      let subs ← secretsGet secrets tenant_id
      let body ← processTenantSubs targets0 secrets group_by today api acct tenant_id subs
      let restOut ← fetchGo targets0 secrets group_by today api rest (tenant_id :: processed)
      pure (FetchOut.append ⟨[], [], [(tenant_id, acct)], []⟩ (body.append restOut))

/-- `MetricExporter.fetch`: one whole fetch cycle. -/
def fetch (targets : List Dict) (secrets : List (String × List Cred))
    (group_by : GroupBy) (today : Date) (api : Api) : Except PyErr FetchOut :=
  fetchGo targets secrets group_by today api targets []

/-! ### The Prometheus gauge registry -/

/-- Code-point comparison of character lists. -/
def charsLe : List Char → List Char → Bool
  | [], _ => true
  | _ :: _, [] => false
  | a :: as, b :: bs =>
    if a.toNat < b.toNat then true
    else if b.toNat < a.toNat then false
    else charsLe as bs

/-- Code-point order on strings, used only to pick a canonical key order. -/
def strLe (a b : String) : Bool := charsLe a.data b.data

/-- Insert an entry into a key-sorted association list. -/
def insertSorted (p : String × String) : Dict → Dict
  | [] => [p]
  | q :: rest => if strLe p.1 q.1 then p :: q :: rest else q :: insertSorted p rest

/-- Canonical form of a label set: entries sorted by key.  Two Python label
dicts denote the same gauge child exactly when their canonical forms agree. -/
def canonLabels (d : Dict) : Dict := d.foldr insertSorted []

/-- One `gauge.labels(**labels).set(v)` write applied to the registry:
upsert keyed by the canonical label set. -/
def applyEmit (reg : List (Dict × ℚ)) (e : Dict × ℚ) : List (Dict × ℚ) :=
  let key := canonLabels e.1
  if reg.any (fun p => p.1 = key) then
    reg.map (fun p => if p.1 = key then (key, e.2) else p)
  else
    reg ++ [(key, e.2)]

/-- The registry contents after a sequence of gauge writes. -/
def runRegistry (emits : List (Dict × ℚ)) : List (Dict × ℚ) :=
  emits.foldl applyEmit []

/-- Whether the fetch loop keeps a row: its index-1 field exists and equals
the integer date key (`result[1] != int(start_date.strftime("%Y%m%d"))`
taken negatively; a missing field is an `IndexError`, not a skip). -/
def rowMatches (dateKey : Nat) (r : List RVal) : Bool :=
  match r.get? 1 with
  | some d => rvalEqInt d dateKey
  | none => false

/-- Modelled from the spec: "For each Target Account in declaration order:
if its tenant is already processed, skip entirely", one tenant-level pass
keyed off the first Target Account encountered for that tenant.  The
expected (tenant, base-account) passes of a cycle. -/
def specTenantPasses : List Dict → List String → List (String × Dict)
  | [], _ => []
  | acct :: rest, seen =>
    match pyDictGet acct "TenantId" with
    | some t =>
      if t ∈ seen then specTenantPasses rest seen
      else (t, acct) :: specTenantPasses rest (t :: seen)
    | none => []

/-- Modelled from the spec: "for every Credential record under that tenant
(i.e., every subscription configured for it)" a fetch is attempted during
that tenant's single pass.  The expected (tenant, subscription) attempts of
a cycle. -/
def specQueried (secrets : List (String × List Cred)) :
    List Dict → List String → List (String × String)
  | [], _ => []
  | acct :: rest, seen =>
    match pyDictGet acct "TenantId" with
    | some t =>
      if t ∈ seen then specQueried secrets rest seen
      else
        (match secrets.find? (fun p => p.1 = t) with
         | some p => p.2.map (fun s => (t, s.SubscriptionId))
         | none => []) ++ specQueried secrets rest (t :: seen)
    | none => []

/-! ### Concrete scenario data -/

/-- Grouping enabled with one group and merge-minor policy
`{enabled: true, threshold: 5, tag_value: "other"}`. -/
def gbMerge : GroupBy := ⟨true, [⟨"TagKey", "Team", "Team"⟩], ⟨true, 5, "other"⟩⟩

/-- Grouping disabled. -/
def gbOff : GroupBy := ⟨false, [], ⟨false, 0, "other"⟩⟩

/-- A target account. -/
def acctProd : Dict := [("TenantId", "T1"), ("Subscription", "S1"), ("EnvironmentName", "prod")]

/-- A second target account of the same tenant. -/
def acctDev : Dict := [("TenantId", "T1"), ("Subscription", "S2"), ("EnvironmentName", "dev")]

/-- A target account of another tenant. -/
def acctT2 : Dict := [("TenantId", "T2"), ("Subscription", "S4"), ("EnvironmentName", "qa")]

/-- Credential records. -/
def credS1 : Cred := ⟨"S1", "id1", "sec1"⟩

def credS2 : Cred := ⟨"S2", "id2", "sec2"⟩

def credS3 : Cred := ⟨"S3", "id3", "sec3"⟩

def credS4 : Cred := ⟨"S4", "id4", "sec4"⟩

def credS9 : Cred := ⟨"S9", "id9", "sec9"⟩

/-- A target account whose tenant is absent from every secrets file used
here. -/
def acctT9 : Dict := [("TenantId", "T9"), ("Subscription", "S1"), ("EnvironmentName", "x")]

/-- Secrets: tenant T1 with one subscription. -/
def secretsOne : List (String × List Cred) := [("T1", [credS1])]

/-- Secrets: tenant T1 with two subscriptions. -/
def secretsTwo : List (String × List Cred) := [("T1", [credS1, credS2])]

/-- Secrets with a subscription (S9) that no target account declares. -/
def secretsC4 : List (String × List Cred) := [("T1", [credS1, credS9])]

/-- Secrets: tenant T1 with three subscriptions and tenant T2 with one. -/
def secretsC5 : List (String × List Cred) := [("T1", [credS1, credS2, credS3]), ("T2", [credS4])]

/-- A fetch date: 2024-01-02, so the query window starts 2024-01-01. -/
def todayJan2 : Date := ⟨2024, 1, 2⟩

/-- The label set of `acctProd` plus the constant charge-type label. -/
def labelsBase : Dict :=
  [("ChargeType", "ActualCost"), ("TenantId", "T1"), ("Subscription", "S1"),
   ("EnvironmentName", "prod")]

/-- `labelsBase` with the group label set to the merge tag value. -/
def labelsOther : Dict := labelsBase ++ [("Team", "other")]

/-- The label set the code produces for the undeclared subscription S9:
`EnvironmentName` is inherited from the base account, not defaulted. -/
def labelsS9 : Dict :=
  [("ChargeType", "ActualCost"), ("TenantId", "T1"), ("Subscription", "S9"),
   ("EnvironmentName", "prod")]

/-- Billing API returning two below-threshold rows dated on the window start. -/
def apiC1 : Api := fun _ _ =>
  .ok [[.num 2, .num 20240101, .str "A"], [.num 3, .num 20240101, .str "B"]]

/-- Billing API returning one row dated on the window end (today) and one on
the window start (yesterday). -/
def apiC2 : Api := fun _ _ => .ok [[.num 12, .num 20240102], [.num 7, .num 20240101]]

/-- Billing API returning one row for subscription S9 and none otherwise. -/
def apiC4 : Api := fun scope _ =>
  if scope = "/subscriptions/S9" then .ok [[.num 7, .num 20240101]] else .ok []

/-- Billing API failing with a provider error on subscription S2 only. -/
def apiC5 : Api := fun scope _ =>
  if scope = "/subscriptions/S2" then .error (.httpResponseError "boom") else .ok []

/-- Billing API returning no rows. -/
def apiEmpty : Api := fun _ _ => .ok []

/-! ### Dictionary lemmas -/


theorem pyDictUpdate_nil (d : Dict) : pyDictUpdate d [] = d := rfl

theorem pyDictUpdate_cons (d : Dict) (p : String × String) (e : Dict) :
    pyDictUpdate d (p :: e) = pyDictUpdate (pyDictSet d p.1 p.2) e := rfl

theorem pyDictSet_of_not_mem (d : Dict) (k v : String) (h : ∀ p ∈ d, p.1 ≠ k) :
    pyDictSet d k v = d ++ [(k, v)] := by
  unfold pyDictSet
  rw [if_neg]
  simp only [List.any_eq_true, not_exists, not_and, decide_eq_true_eq]
  exact h

theorem find?_map_subst_self (rest : Dict) (k v : String) :
    Option.map (fun p => p.2)
      (List.find? (fun p => p.1 = k) (rest.map (fun p => if p.1 = k then (k, v) else p))) =
    if rest.any (fun p => p.1 = k) then some v else none := by
  induction rest with
  | nil => simp
  | cons p rest ih =>
    by_cases hp : p.1 = k
    · simp only [List.map_cons, if_pos hp]
      rw [List.find?_cons_of_pos _ (by simp)]
      simp [hp]
    · simp only [List.map_cons, if_neg hp]
      rw [List.find?_cons_of_neg _ (by simpa using hp), ih, List.any_cons, decide_eq_false hp,
        Bool.false_or]

theorem find?_map_subst_ne (rest : Dict) (k v k2 : String) (hne : k2 ≠ k) :
    List.find? (fun p => p.1 = k2) (rest.map (fun p => if p.1 = k then (k, v) else p)) =
    List.find? (fun p => p.1 = k2) rest := by
  induction rest with
  | nil => simp
  | cons p rest ih =>
    by_cases hp : p.1 = k
    · simp only [List.map_cons, if_pos hp]
      rw [List.find?_cons_of_neg _ (by simpa using fun h : k = k2 => hne h.symm),
        List.find?_cons_of_neg _ (by simpa using fun h : p.1 = k2 => hne (hp ▸ h).symm)]
      exact ih
    · simp only [List.map_cons, if_neg hp]
      by_cases hp2 : p.1 = k2
      · rw [List.find?_cons_of_pos _ (by simpa using hp2), List.find?_cons_of_pos _ (by simpa using hp2)]
      · rw [List.find?_cons_of_neg _ (by simpa using hp2), List.find?_cons_of_neg _ (by simpa using hp2)]
        exact ih

theorem pyDictGet_set_self (d : Dict) (k v : String) :
    pyDictGet (pyDictSet d k v) k = some v := by
  unfold pyDictSet pyDictGet
  split
  · rename_i h
    rw [find?_map_subst_self]
    simp only [h, if_true]
  · rename_i h
    rw [List.find?_append]
    have hnone : d.find? (fun p => p.1 = k) = none := by
      rw [List.find?_eq_none]
      intro p hp
      simp only [List.any_eq_true, not_exists, not_and] at h
      exact h p hp
    rw [hnone, List.find?_cons_of_pos _ (by simp)]
    rfl

theorem pyDictGet_set_ne (d : Dict) (k v k2 : String) (hne : k2 ≠ k) :
    pyDictGet (pyDictSet d k v) k2 = pyDictGet d k2 := by
  unfold pyDictSet pyDictGet
  split
  · rw [find?_map_subst_ne _ _ _ _ hne]
  · rw [List.find?_append]
    rw [List.find?_cons_of_neg _ (by simpa using fun h : k = k2 => hne h.symm)]
    cases h3 : d.find? (fun p => p.1 = k2) <;> simp

/-! ### Update and tag-dict lemmas -/


theorem pyDictGet_update_not_mem (d e : Dict) (k : String) (h : ∀ p ∈ e, p.1 ≠ k) :
    pyDictGet (pyDictUpdate d e) k = pyDictGet d k := by
  induction e generalizing d with
  | nil => rfl
  | cons q e ih =>
    rw [pyDictUpdate_cons, ih _ (fun p hp => h p (List.mem_cons_of_mem _ hp)),
      pyDictGet_set_ne _ _ _ _ (fun hk => h q (List.mem_cons_self _ _) hk.symm)]

theorem pyDictGet_update_const (d e : Dict) (k v : String)
    (hall : ∀ p ∈ e, p.2 = v) (hmem : ∃ p ∈ e, p.1 = k) :
    pyDictGet (pyDictUpdate d e) k = some v := by
  induction e generalizing d with
  | nil => simp at hmem
  | cons q e ih =>
    rw [pyDictUpdate_cons]
    by_cases he : ∃ p ∈ e, p.1 = k
    · exact ih _ (fun p hp => hall p (List.mem_cons_of_mem _ hp)) he
    · have hq : q.1 = k := by
        rcases hmem with ⟨p, hp, hpk⟩
        rcases List.mem_cons.mp hp with rfl | hpe
        · exact hpk
        · exact absurd ⟨p, hpe, hpk⟩ he
      rw [pyDictGet_update_not_mem _ _ _
        (fun p hp hpk => he ⟨p, hp, hpk⟩)]
      rw [hq, pyDictGet_set_self]
      rw [hall q (List.mem_cons_self _ _)]

theorem pyDictUpdate_append (d e : Dict) (hnd : (e.map Prod.fst).Nodup)
    (hdisj : ∀ p ∈ e, ∀ q ∈ d, q.1 ≠ p.1) :
    pyDictUpdate d e = d ++ e := by
  induction e generalizing d with
  | nil => simp [pyDictUpdate_nil]
  | cons q e ih =>
    rw [pyDictUpdate_cons,
      pyDictSet_of_not_mem _ _ _ (fun p hp => hdisj q (List.mem_cons_self _ _) p hp)]
    rw [List.map_cons, List.nodup_cons] at hnd
    rw [ih _ hnd.2]
    · simp
    · intro p hp r hr
      rcases List.mem_append.mp hr with hrd | hrq
      · exact hdisj p (List.mem_cons_of_mem _ hp) r hrd
      · have : r = q := by simpa using hrq
        subst this
        intro hc
        exact hnd.1 (hc ▸ List.mem_map_of_mem Prod.fst hp)

theorem mem_pyDictSet (d : Dict) (k v : String) (p : String × String)
    (hp : p ∈ pyDictSet d k v) : p = (k, v) ∨ p ∈ d := by
  unfold pyDictSet at hp
  split at hp
  · rcases List.mem_map.mp hp with ⟨q, hq, rfl⟩
    split
    · exact Or.inl rfl
    · exact Or.inr hq
  · rcases List.mem_append.mp hp with hq | hq
    · exact Or.inr hq
    · exact Or.inl (by simpa using hq)

theorem key_mem_pyDictSet_self (d : Dict) (k v : String) :
    ∃ p ∈ pyDictSet d k v, p.1 = k := by
  unfold pyDictSet
  split
  · rename_i h
    simp only [List.any_eq_true, decide_eq_true_eq] at h
    rcases h with ⟨q, hq, hqk⟩
    exact ⟨(k, v), List.mem_map.mpr ⟨q, hq, by simp [hqk]⟩, rfl⟩
  · exact ⟨(k, v), List.mem_append.mpr (Or.inr (by simp)), rfl⟩

theorem key_mem_pyDictSet_of_mem (d : Dict) (k v K : String)
    (h : ∃ p ∈ d, p.1 = K) : ∃ p ∈ pyDictSet d k v, p.1 = K := by
  rcases h with ⟨q, hq, hqK⟩
  unfold pyDictSet
  split
  · by_cases hqk : q.1 = k
    · exact ⟨(k, v), List.mem_map.mpr ⟨q, hq, by simp [hqk]⟩, by rw [← hqk, hqK]⟩
    · exact ⟨q, List.mem_map.mpr ⟨q, hq, by simp [hqk]⟩, hqK⟩
  · exact ⟨q, List.mem_append.mpr (Or.inl hq), hqK⟩

theorem tagDict_values (group_by : GroupBy) :
    ∀ p ∈ tagDict group_by, p.2 = group_by.merge_minor_cost.tag_value := by
  unfold tagDict
  have main : ∀ (gs : List Group) (acc : Dict),
      (∀ p ∈ acc, p.2 = group_by.merge_minor_cost.tag_value) →
      ∀ p ∈ gs.foldl
        (fun acc g => pyDictUpdate acc [(g.label_name, group_by.merge_minor_cost.tag_value)]) acc,
        p.2 = group_by.merge_minor_cost.tag_value := by
    intro gs
    induction gs with
    | nil => intro acc hacc p hp; exact hacc p hp
    | cons g gs ih =>
      intro acc hacc p hp
      refine ih _ ?_ p hp
      intro q hq
      rcases mem_pyDictSet _ _ _ _ hq with rfl | hqa
      · rfl
      · exact hacc q hqa
  exact main _ [] (by simp)

theorem tagDict_keys (group_by : GroupBy) (g : Group) (hg : g ∈ group_by.groups) :
    ∃ p ∈ tagDict group_by, p.1 = g.label_name := by
  unfold tagDict
  have main : ∀ (gs : List Group) (acc : Dict),
      (g ∈ gs ∨ ∃ p ∈ acc, p.1 = g.label_name) →
      ∃ p ∈ gs.foldl
        (fun acc g => pyDictUpdate acc [(g.label_name, group_by.merge_minor_cost.tag_value)]) acc,
        p.1 = g.label_name := by
    intro gs
    induction gs with
    | nil =>
      intro acc h
      rcases h with h | h
      · simp at h
      · exact h
    | cons q gs ih =>
      intro acc h
      refine ih _ ?_
      rcases h with h | h
      · rcases List.mem_cons.mp h with rfl | hgs
        · exact Or.inr (key_mem_pyDictSet_self _ _ _)
        · exact Or.inl hgs
      · exact Or.inr (key_mem_pyDictSet_of_mem _ _ _ _ h)
  exact main _ [] (Or.inl hg)

theorem pyDictGet_update_tagDict (group_by : GroupBy) (d : Dict) (g : Group)
    (hg : g ∈ group_by.groups) :
    pyDictGet (pyDictUpdate d (tagDict group_by)) g.label_name =
      some group_by.merge_minor_cost.tag_value :=
  pyDictGet_update_const _ _ _ _ (tagDict_values group_by) (tagDict_keys group_by g hg)

theorem FetchOut.append_assoc (a b c : FetchOut) :
    (a.append b).append c = a.append (b.append c) := by
  simp [FetchOut.append]

theorem FetchOut.append_empty (a : FetchOut) : a.append FetchOut.empty = a := by
  simp [FetchOut.append, FetchOut.empty]

theorem FetchOut.empty_append (a : FetchOut) : FetchOut.empty.append a = a := by
  simp [FetchOut.append, FetchOut.empty]

/-! ### Result-mapping lemmas -/


theorem exceptBind_ok {α β ε : Type} (a : α) (f : α → Except ε β) :
    (Except.ok a >>= f) = f a := rfl

theorem exceptBind_error {α β ε : Type} (e : ε) (f : α → Except ε β) :
    ((Except.error e : Except ε α) >>= f) = .error e := rfl

theorem expose_metrics_disabled (group_by : GroupBy) (acct : Dict) (result : List RVal)
    (cost : ℚ) (hgb : group_by.enabled = false) (h0 : result.get? 0 = some (.num cost)) :
    expose_metrics group_by acct result =
      .ok [(pyDictUpdate [("ChargeType", "ActualCost")] acct, cost)] := by
  unfold expose_metrics
  simp only [pyGet, h0, exceptBind_ok, pyFloat, hgb, Bool.false_eq_true, if_false]
  rfl

theorem expose_metrics_grouped (group_by : GroupBy) (acct : Dict) (result : List RVal)
    (cost : ℚ) (gkv : Dict) (hgb : group_by.enabled = true)
    (h0 : result.get? 0 = some (.num cost))
    (hc : collectGroupValues group_by.groups 2 result [] = .ok gkv) :
    expose_metrics group_by acct result =
      if group_by.merge_minor_cost.enabled ∧ cost < group_by.merge_minor_cost.threshold then
        if 0 < cost then
          .ok [(pyDictUpdate (pyDictUpdate [("ChargeType", "ActualCost")] acct)
                  (tagDict group_by), cost)]
        else .ok []
      else
        .ok [(pyDictUpdate (pyDictUpdate [("ChargeType", "ActualCost")] acct) gkv, cost)] := by
  unfold expose_metrics
  simp only [pyGet, h0, exceptBind_ok, pyFloat, hgb, if_true, hc]
  split
  · split <;> rfl
  · rfl

theorem expose_metrics_collect_error (group_by : GroupBy) (acct : Dict) (result : List RVal)
    (cost : ℚ) (e : PyErr) (hgb : group_by.enabled = true)
    (h0 : result.get? 0 = some (.num cost))
    (hc : collectGroupValues group_by.groups 2 result [] = .error e) :
    expose_metrics group_by acct result = .error e := by
  unfold expose_metrics
  simp only [pyGet, h0, exceptBind_ok, pyFloat, hgb, if_true, hc, exceptBind_error]

theorem expose_metrics_badcost (group_by : GroupBy) (acct : Dict) (result : List RVal)
    (s : String) (h0 : result.get? 0 = some (.str s)) :
    expose_metrics group_by acct result =
      .error (.valueError ("could not convert string to float: " ++ s)) := by
  unfold expose_metrics
  simp only [pyGet, h0, exceptBind_ok, pyFloat, exceptBind_error]

theorem collectGroupValues_short (g : Group) (gs : List Group) (i : Nat)
    (result : List RVal) (acc : Dict) (h : result.get? i = none) :
    collectGroupValues (g :: gs) i result acc = .error .indexError := by
  unfold collectGroupValues
  simp only [pyGet, h, exceptBind_error]

theorem collectGroupValues_preserves (gs : List Group) (i : Nat) (result : List RVal)
    (acc d : Dict) (K : String) (h : collectGroupValues gs i result acc = .ok d)
    (hK : ∀ g ∈ gs, g.label_name ≠ K) : pyDictGet d K = pyDictGet acc K := by
  induction gs generalizing i acc with
  | nil =>
    unfold collectGroupValues at h
    cases h
    rfl
  | cons g gs ih =>
    unfold collectGroupValues at h
    cases hv : result.get? i with
    | none =>
      simp only [pyGet, hv, exceptBind_error] at h
      exact Except.noConfusion h
    | some v =>
      simp only [pyGet, hv, exceptBind_ok] at h
      rw [ih _ _ h (fun g2 hg2 => hK g2 (List.mem_cons_of_mem _ hg2)),
        pyDictGet_set_ne _ _ _ _ (fun hc => hK g (List.mem_cons_self _ _) hc.symm)]

theorem collectGroupValues_lookup (gs : List Group) (i : Nat) (result : List RVal)
    (acc d : Dict) (h : collectGroupValues gs i result acc = .ok d)
    (j : Nat) (hj : j < gs.length) (v : RVal) (hv : result.get? (i + j) = some v)
    (hlater : ∀ g2 ∈ gs.drop (j + 1), g2.label_name ≠ (gs.get ⟨j, hj⟩).label_name) :
    pyDictGet d (gs.get ⟨j, hj⟩).label_name = some (rvalStr v) := by
  induction gs generalizing i acc j with
  | nil => simp at hj
  | cons g gs ih =>
    unfold collectGroupValues at h
    cases hv0 : result.get? i with
    | none =>
      simp only [pyGet, hv0, exceptBind_error] at h
      exact Except.noConfusion h
    | some v0 =>
      simp only [pyGet, hv0, exceptBind_ok] at h
      cases j with
      | zero =>
        simp only [List.get] at hlater ⊢
        have hv0v : v0 = v := by
          rw [Nat.add_zero] at hv
          rw [hv0] at hv
          exact Option.some.inj hv
        subst hv0v
        rw [collectGroupValues_preserves _ _ _ _ _ _ h (by simpa using hlater),
          pyDictGet_set_self]
      | succ j =>
        have hj2 : j < gs.length := Nat.lt_of_succ_lt_succ hj
        have := ih (i + 1) _ h j hj2 (by rw [← hv]; congr 1; omega) (by simpa using hlater)
        simpa using this

/-! ### Row-loop lemmas -/


theorem processRows_nil (group_by : GroupBy) (acct : Dict) (dateKey : Nat) :
    processRows group_by acct dateKey [] = .ok [] := rfl

theorem processRows_cons_none (group_by : GroupBy) (acct : Dict) (dateKey : Nat)
    (r : List RVal) (rest : List (List RVal)) (h : r.get? 1 = none) :
    processRows group_by acct dateKey (r :: rest) = .error .indexError := by
  simp only [processRows, pyGet, h, exceptBind_error]

theorem processRows_cons_skip (group_by : GroupBy) (acct : Dict) (dateKey : Nat)
    (r : List RVal) (rest : List (List RVal)) (dv : RVal) (h : r.get? 1 = some dv)
    (hne : rvalEqInt dv dateKey = false) :
    processRows group_by acct dateKey (r :: rest) = processRows group_by acct dateKey rest := by
  simp only [processRows, pyGet, h, exceptBind_ok, hne, Bool.false_eq_true, if_false]

theorem processRows_cons_take (group_by : GroupBy) (acct : Dict) (dateKey : Nat)
    (r : List RVal) (rest : List (List RVal)) (dv : RVal) (h : r.get? 1 = some dv)
    (heq : rvalEqInt dv dateKey = true) :
    processRows group_by acct dateKey (r :: rest) =
      (expose_metrics group_by acct r) >>= (fun es =>
        (processRows group_by acct dateKey rest) >>= (fun more => pure (es ++ more))) := by
  simp only [processRows, pyGet, h, exceptBind_ok, heq, if_true]

theorem processRows_filter (group_by : GroupBy) (acct : Dict) (dateKey : Nat)
    (rows : List (List RVal)) (h : ∀ r ∈ rows, (r.get? 1).isSome) :
    processRows group_by acct dateKey rows =
      processRows group_by acct dateKey (rows.filter (rowMatches dateKey)) := by
  induction rows with
  | nil => rfl
  | cons r rest ih =>
    have hr : (r.get? 1).isSome := h r (List.mem_cons_self _ _)
    rcases Option.isSome_iff_exists.mp hr with ⟨dv, hdv⟩
    have ih2 := ih (fun r2 hr2 => h r2 (List.mem_cons_of_mem _ hr2))
    cases hm : rvalEqInt dv dateKey with
    | false =>
      rw [processRows_cons_skip _ _ _ _ _ _ hdv hm, ih2]
      rw [List.filter_cons_of_neg (by simp only [rowMatches, hdv, hm]; simp)]
    | true =>
      rw [List.filter_cons_of_pos (by simp only [rowMatches, hdv, hm])]
      rw [processRows_cons_take _ _ _ _ _ _ hdv hm, processRows_cons_take _ _ _ _ _ _ hdv hm, ih2]

theorem expose_metrics_disabled_length (group_by : GroupBy) (acct : Dict)
    (result : List RVal) (l : List (Dict × ℚ)) (hgb : group_by.enabled = false)
    (h : expose_metrics group_by acct result = .ok l) : l.length = 1 := by
  cases h0 : result.get? 0 with
  | none =>
    unfold expose_metrics at h
    simp only [pyGet, h0, exceptBind_error] at h
    exact Except.noConfusion h
  | some v =>
    cases v with
    | num c =>
      rw [expose_metrics_disabled _ _ _ _ hgb h0] at h
      cases h
      rfl
    | str s =>
      rw [expose_metrics_badcost _ _ _ _ h0] at h
      exact Except.noConfusion h

theorem processRows_disabled_length (group_by : GroupBy) (acct : Dict) (dateKey : Nat)
    (rows : List (List RVal)) (es : List (Dict × ℚ)) (hgb : group_by.enabled = false)
    (h : processRows group_by acct dateKey rows = .ok es) :
    es.length = (rows.filter (rowMatches dateKey)).length := by
  induction rows generalizing es with
  | nil =>
    cases h
    rfl
  | cons r rest ih =>
    cases hdv : r.get? 1 with
    | none =>
      rw [processRows_cons_none _ _ _ _ _ hdv] at h
      exact Except.noConfusion h
    | some dv =>
      cases hm : rvalEqInt dv dateKey with
      | false =>
        rw [processRows_cons_skip _ _ _ _ _ _ hdv hm] at h
        rw [List.filter_cons_of_neg (by simp only [rowMatches, hdv, hm]; simp)]
        exact ih _ h
      | true =>
        rw [processRows_cons_take _ _ _ _ _ _ hdv hm] at h
        cases hexp : expose_metrics group_by acct r with
        | error e =>
          rw [hexp] at h
          exact Except.noConfusion h
        | ok l =>
          rw [hexp, exceptBind_ok] at h
          cases hrest : processRows group_by acct dateKey rest with
          | error e =>
            rw [hrest] at h
            exact Except.noConfusion h
          | ok es2 =>
            rw [hrest, exceptBind_ok] at h
            cases h
            rw [List.filter_cons_of_pos (by simp only [rowMatches, hdv, hm])]
            simp only [List.length_append, List.length_cons]
            rw [expose_metrics_disabled_length _ _ _ _ hgb hexp, ih _ hrest]
            omega

/-! ### Per-subscription orchestration lemmas -/


theorem processSub_http (targets : List Dict) (secrets : List (String × List Cred))
    (group_by : GroupBy) (today : Date) (api : Api) (azure_account : Dict)
    (tenant_id : String) (s : Cred) (c : Cred) (reason : String)
    (hinit : init_azure_client secrets tenant_id s.SubscriptionId = .ok c)
    (hapi : api ("/subscriptions/" ++ s.SubscriptionId)
        (buildQueryDefinition group_by (prevDay today) today) =
      .error (.httpResponseError reason)) :
    processSub targets secrets group_by today api azure_account tenant_id s =
      .ok ⟨[], [(s.SubscriptionId, reason)], [], [(tenant_id, s.SubscriptionId)]⟩ := by
  unfold processSub query_azure_cost_explorer
  simp only [hinit, exceptBind_ok, hapi, exceptBind_error]

theorem processSub_ok (targets : List Dict) (secrets : List (String × List Cred))
    (group_by : GroupBy) (today : Date) (api : Api) (azure_account : Dict)
    (tenant_id : String) (s : Cred) (c : Cred) (rows : List (List RVal))
    (emits : List (Dict × ℚ))
    (hinit : init_azure_client secrets tenant_id s.SubscriptionId = .ok c)
    (hapi : api ("/subscriptions/" ++ s.SubscriptionId)
        (buildQueryDefinition group_by (prevDay today) today) = .ok rows)
    (hrows : processRows group_by (resolveAccount targets azure_account s.SubscriptionId)
        (dateInt (prevDay today)) rows = .ok emits) :
    processSub targets secrets group_by today api azure_account tenant_id s =
      .ok ⟨emits, [], [], [(tenant_id, s.SubscriptionId)]⟩ := by
  unfold processSub query_azure_cost_explorer
  simp only [hinit, exceptBind_ok, hapi, hrows]

theorem processSub_init_error (targets : List Dict) (secrets : List (String × List Cred))
    (group_by : GroupBy) (today : Date) (api : Api) (azure_account : Dict)
    (tenant_id : String) (s : Cred) (e : PyErr)
    (hinit : init_azure_client secrets tenant_id s.SubscriptionId = .error e) :
    processSub targets secrets group_by today api azure_account tenant_id s = .error e := by
  unfold processSub
  simp only [hinit, exceptBind_error]

theorem processSub_rows_error (targets : List Dict) (secrets : List (String × List Cred))
    (group_by : GroupBy) (today : Date) (api : Api) (azure_account : Dict)
    (tenant_id : String) (s : Cred) (c : Cred) (rows : List (List RVal)) (e : PyErr)
    (hinit : init_azure_client secrets tenant_id s.SubscriptionId = .ok c)
    (hapi : api ("/subscriptions/" ++ s.SubscriptionId)
        (buildQueryDefinition group_by (prevDay today) today) = .ok rows)
    (hrows : processRows group_by (resolveAccount targets azure_account s.SubscriptionId)
        (dateInt (prevDay today)) rows = .error e)
    (hnothttp : ∀ reason, e ≠ .httpResponseError reason) :
    processSub targets secrets group_by today api azure_account tenant_id s = .error e := by
  unfold processSub query_azure_cost_explorer
  simp only [hinit, exceptBind_ok, hapi, hrows]

theorem processSub_rows_http (targets : List Dict) (secrets : List (String × List Cred))
    (group_by : GroupBy) (today : Date) (api : Api) (azure_account : Dict)
    (tenant_id : String) (s : Cred) (c : Cred) (rows : List (List RVal)) (reason : String)
    (hinit : init_azure_client secrets tenant_id s.SubscriptionId = .ok c)
    (hapi : api ("/subscriptions/" ++ s.SubscriptionId)
        (buildQueryDefinition group_by (prevDay today) today) = .ok rows)
    (hrows : processRows group_by (resolveAccount targets azure_account s.SubscriptionId)
        (dateInt (prevDay today)) rows = .error (.httpResponseError reason)) :
    processSub targets secrets group_by today api azure_account tenant_id s =
      .ok ⟨[], [(s.SubscriptionId, reason)], [], [(tenant_id, s.SubscriptionId)]⟩ := by
  unfold processSub query_azure_cost_explorer
  simp only [hinit, exceptBind_ok, hapi, hrows]

theorem processSub_api_error_nonhttp (targets : List Dict)
    (secrets : List (String × List Cred)) (group_by : GroupBy) (today : Date) (api : Api)
    (azure_account : Dict) (tenant_id : String) (s : Cred) (c : Cred) (e : PyErr)
    (hinit : init_azure_client secrets tenant_id s.SubscriptionId = .ok c)
    (hapi : api ("/subscriptions/" ++ s.SubscriptionId)
        (buildQueryDefinition group_by (prevDay today) today) = .error e)
    (hnothttp : ∀ reason, e ≠ .httpResponseError reason) :
    processSub targets secrets group_by today api azure_account tenant_id s = .error e := by
  unfold processSub query_azure_cost_explorer
  simp only [hinit, exceptBind_ok, hapi, exceptBind_error]

theorem processSub_ok_inv (targets : List Dict) (secrets : List (String × List Cred))
    (group_by : GroupBy) (today : Date) (api : Api) (azure_account : Dict)
    (tenant_id : String) (s : Cred) (out : FetchOut)
    (h : processSub targets secrets group_by today api azure_account tenant_id s = .ok out) :
    out.passes = [] ∧ out.queried = [(tenant_id, s.SubscriptionId)] := by
  cases hinit : init_azure_client secrets tenant_id s.SubscriptionId with
  | error e =>
    rw [processSub_init_error _ _ _ _ _ _ _ _ _ hinit] at h
    exact Except.noConfusion h
  | ok c =>
    cases hapi : api ("/subscriptions/" ++ s.SubscriptionId)
        (buildQueryDefinition group_by (prevDay today) today) with
    | error e =>
      cases e with
      | httpResponseError reason =>
        rw [processSub_http _ _ _ _ _ _ _ _ _ _ hinit hapi] at h
        cases h
        exact ⟨rfl, rfl⟩
      | indexError =>
        rw [processSub_api_error_nonhttp _ _ _ _ _ _ _ _ _ _ hinit hapi (by intro r hc; cases hc)]
          at h
        exact Except.noConfusion h
      | valueError m =>
        rw [processSub_api_error_nonhttp _ _ _ _ _ _ _ _ _ _ hinit hapi (by intro r hc; cases hc)]
          at h
        exact Except.noConfusion h
      | keyError k =>
        rw [processSub_api_error_nonhttp _ _ _ _ _ _ _ _ _ _ hinit hapi (by intro r hc; cases hc)]
          at h
        exact Except.noConfusion h
    | ok rows =>
      cases hrows : processRows group_by (resolveAccount targets azure_account s.SubscriptionId)
          (dateInt (prevDay today)) rows with
      | ok emits =>
        rw [processSub_ok _ _ _ _ _ _ _ _ _ _ _ hinit hapi hrows] at h
        cases h
        exact ⟨rfl, rfl⟩
      | error e =>
        cases e with
        | httpResponseError reason =>
          rw [processSub_rows_http _ _ _ _ _ _ _ _ _ _ _ hinit hapi hrows] at h
          cases h
          exact ⟨rfl, rfl⟩
        | indexError =>
          rw [processSub_rows_error _ _ _ _ _ _ _ _ _ _ _ hinit hapi hrows
            (by intro r hc; cases hc)] at h
          exact Except.noConfusion h
        | valueError m =>
          rw [processSub_rows_error _ _ _ _ _ _ _ _ _ _ _ hinit hapi hrows
            (by intro r hc; cases hc)] at h
          exact Except.noConfusion h
        | keyError k =>
          rw [processSub_rows_error _ _ _ _ _ _ _ _ _ _ _ hinit hapi hrows
            (by intro r hc; cases hc)] at h
          exact Except.noConfusion h

theorem processTenantSubs_nil (targets : List Dict) (secrets : List (String × List Cred))
    (group_by : GroupBy) (today : Date) (api : Api) (azure_account : Dict)
    (tenant_id : String) :
    processTenantSubs targets secrets group_by today api azure_account tenant_id [] =
      .ok FetchOut.empty := rfl

theorem processTenantSubs_cons (targets : List Dict) (secrets : List (String × List Cred))
    (group_by : GroupBy) (today : Date) (api : Api) (azure_account : Dict)
    (tenant_id : String) (s : Cred) (rest : List Cred) :
    processTenantSubs targets secrets group_by today api azure_account tenant_id (s :: rest) =
      (processSub targets secrets group_by today api azure_account tenant_id s) >>= (fun a =>
        (processTenantSubs targets secrets group_by today api azure_account tenant_id rest) >>=
          (fun b => pure (a.append b))) := by
  simp only [processTenantSubs]

theorem processTenantSubs_append (targets : List Dict) (secrets : List (String × List Cred))
    (group_by : GroupBy) (today : Date) (api : Api) (azure_account : Dict)
    (tenant_id : String) (l1 l2 : List Cred) :
    processTenantSubs targets secrets group_by today api azure_account tenant_id (l1 ++ l2) =
      (processTenantSubs targets secrets group_by today api azure_account tenant_id l1) >>=
        (fun a =>
          (processTenantSubs targets secrets group_by today api azure_account tenant_id l2) >>=
            (fun b => pure (a.append b))) := by
  induction l1 with
  | nil =>
    rw [List.nil_append, processTenantSubs_nil, exceptBind_ok]
    cases h : processTenantSubs targets secrets group_by today api azure_account tenant_id l2 with
    | error e => rfl
    | ok b => simp [exceptBind_ok, pure, Except.pure, FetchOut.empty_append]
  | cons s l1 ih =>
    rw [List.cons_append, processTenantSubs_cons, processTenantSubs_cons, ih]
    cases ha : processSub targets secrets group_by today api azure_account tenant_id s with
    | error e => rfl
    | ok a =>
      rw [exceptBind_ok, exceptBind_ok]
      cases h1 : processTenantSubs targets secrets group_by today api azure_account tenant_id l1 with
      | error e => rfl
      | ok b =>
        rw [exceptBind_ok, exceptBind_ok]
        cases h2 : processTenantSubs targets secrets group_by today api azure_account tenant_id l2 with
        | error e => rfl
        | ok c =>
          simp [pure, Except.pure, exceptBind_ok, FetchOut.append_assoc]

theorem processTenantSubs_ok_inv (targets : List Dict) (secrets : List (String × List Cred))
    (group_by : GroupBy) (today : Date) (api : Api) (azure_account : Dict)
    (tenant_id : String) (subs : List Cred) (out : FetchOut)
    (h : processTenantSubs targets secrets group_by today api azure_account tenant_id subs =
      .ok out) :
    out.passes = [] ∧ out.queried = subs.map (fun s => (tenant_id, s.SubscriptionId)) := by
  induction subs generalizing out with
  | nil =>
    cases h
    exact ⟨rfl, rfl⟩
  | cons s rest ih =>
    rw [processTenantSubs_cons] at h
    cases ha : processSub targets secrets group_by today api azure_account tenant_id s with
    | error e =>
      rw [ha, exceptBind_error] at h
      exact Except.noConfusion h
    | ok a =>
      rw [ha, exceptBind_ok] at h
      cases hb : processTenantSubs targets secrets group_by today api azure_account
          tenant_id rest with
      | error e =>
        rw [hb, exceptBind_error] at h
        exact Except.noConfusion h
      | ok b =>
        rw [hb, exceptBind_ok] at h
        cases h
        rcases processSub_ok_inv _ _ _ _ _ _ _ _ _ ha with ⟨hp, hq⟩
        rcases ih _ hb with ⟨hp2, hq2⟩
        constructor
        · simp [FetchOut.append, hp, hp2]
        · simp [FetchOut.append, hq, hq2]

/-! ### Cycle-level lemmas -/


theorem fetchGo_nil (targets0 : List Dict) (secrets : List (String × List Cred))
    (group_by : GroupBy) (today : Date) (api : Api) (processed : List String) :
    fetchGo targets0 secrets group_by today api [] processed = .ok FetchOut.empty := rfl

theorem fetchGo_cons_skip (targets0 : List Dict) (secrets : List (String × List Cred))
    (group_by : GroupBy) (today : Date) (api : Api) (acct : Dict) (rest : List Dict)
    (processed : List String) (t : String) (ht : dictGetE acct "TenantId" = .ok t)
    (hmem : t ∈ processed) :
    fetchGo targets0 secrets group_by today api (acct :: rest) processed =
      fetchGo targets0 secrets group_by today api rest processed := by
  simp only [fetchGo, ht, exceptBind_ok, if_pos hmem]

theorem fetchGo_cons_key_error (targets0 : List Dict) (secrets : List (String × List Cred))
    (group_by : GroupBy) (today : Date) (api : Api) (acct : Dict) (rest : List Dict)
    (processed : List String) (e : PyErr) (ht : dictGetE acct "TenantId" = .error e) :
    fetchGo targets0 secrets group_by today api (acct :: rest) processed = .error e := by
  simp only [fetchGo, ht, exceptBind_error]

theorem fetchGo_cons_new (targets0 : List Dict) (secrets : List (String × List Cred))
    (group_by : GroupBy) (today : Date) (api : Api) (acct : Dict) (rest : List Dict)
    (processed : List String) (t : String) (subs : List Cred) (body : FetchOut)
    (ht : dictGetE acct "TenantId" = .ok t) (hmem : t ∉ processed)
    (hsubs : secretsGet secrets t = .ok subs)
    (hbody : processTenantSubs targets0 secrets group_by today api acct t subs = .ok body) :
    fetchGo targets0 secrets group_by today api (acct :: rest) processed =
      (fetchGo targets0 secrets group_by today api rest (t :: processed)) >>= (fun restOut =>
        pure (FetchOut.append ⟨[], [], [(t, acct)], []⟩ (body.append restOut))) := by
  simp only [fetchGo, ht, exceptBind_ok, if_neg hmem, hsubs, hbody]

theorem fetchGo_cons_secrets_error (targets0 : List Dict)
    (secrets : List (String × List Cred)) (group_by : GroupBy) (today : Date) (api : Api)
    (acct : Dict) (rest : List Dict) (processed : List String) (t : String) (e : PyErr)
    (ht : dictGetE acct "TenantId" = .ok t) (hmem : t ∉ processed)
    (hsubs : secretsGet secrets t = .error e) :
    fetchGo targets0 secrets group_by today api (acct :: rest) processed = .error e := by
  simp only [fetchGo, ht, exceptBind_ok, if_neg hmem, hsubs, exceptBind_error]

theorem fetchGo_cons_body_error (targets0 : List Dict)
    (secrets : List (String × List Cred)) (group_by : GroupBy) (today : Date) (api : Api)
    (acct : Dict) (rest : List Dict) (processed : List String) (t : String)
    (subs : List Cred) (e : PyErr)
    (ht : dictGetE acct "TenantId" = .ok t) (hmem : t ∉ processed)
    (hsubs : secretsGet secrets t = .ok subs)
    (hbody : processTenantSubs targets0 secrets group_by today api acct t subs = .error e) :
    fetchGo targets0 secrets group_by today api (acct :: rest) processed = .error e := by
  simp only [fetchGo, ht, exceptBind_ok, if_neg hmem, hsubs, hbody, exceptBind_error]

theorem secretsGet_ok_inv (secrets : List (String × List Cred)) (t : String)
    (subs : List Cred) (h : secretsGet secrets t = .ok subs) :
    ∃ p, secrets.find? (fun p => p.1 = t) = some p ∧ p.2 = subs := by
  unfold secretsGet at h
  cases hf : secrets.find? (fun p => p.1 = t) with
  | none =>
    rw [hf] at h
    exact Except.noConfusion h
  | some p =>
    rw [hf] at h
    cases h
    exact ⟨p, rfl, rfl⟩

theorem dictGetE_ok_inv (d : Dict) (k v : String) (h : dictGetE d k = .ok v) :
    pyDictGet d k = some v := by
  unfold dictGetE at h
  cases hf : pyDictGet d k with
  | none =>
    rw [hf] at h
    exact Except.noConfusion h
  | some w =>
    rw [hf] at h
    cases h
    rfl

theorem specTenantPasses_cons (acct : Dict) (rest : List Dict) (seen : List String)
    (t : String) (ht : pyDictGet acct "TenantId" = some t) :
    specTenantPasses (acct :: rest) seen =
      if t ∈ seen then specTenantPasses rest seen
      else (t, acct) :: specTenantPasses rest (t :: seen) := by
  simp only [specTenantPasses, ht]

theorem specQueried_cons (secrets : List (String × List Cred)) (acct : Dict)
    (rest : List Dict) (seen : List String) (t : String)
    (ht : pyDictGet acct "TenantId" = some t) :
    specQueried secrets (acct :: rest) seen =
      if t ∈ seen then specQueried secrets rest seen
      else
        (match secrets.find? (fun p => p.1 = t) with
         | some p => p.2.map (fun s => (t, s.SubscriptionId))
         | none => []) ++ specQueried secrets rest (t :: seen) := by
  simp only [specQueried, ht]

theorem fetchGo_ok_trace (targets0 : List Dict) (secrets : List (String × List Cred))
    (group_by : GroupBy) (today : Date) (api : Api) (targets : List Dict)
    (processed : List String) (out : FetchOut)
    (h : fetchGo targets0 secrets group_by today api targets processed = .ok out) :
    out.passes = specTenantPasses targets processed ∧
      out.queried = specQueried secrets targets processed := by
  induction targets generalizing processed out with
  | nil =>
    cases h
    exact ⟨rfl, rfl⟩
  | cons acct rest ih =>
    cases ht : dictGetE acct "TenantId" with
    | error e =>
      rw [fetchGo_cons_key_error _ _ _ _ _ _ _ _ _ ht] at h
      exact Except.noConfusion h
    | ok t =>
      have htget : pyDictGet acct "TenantId" = some t := dictGetE_ok_inv _ _ _ ht
      by_cases hmem : t ∈ processed
      · rw [fetchGo_cons_skip _ _ _ _ _ _ _ _ _ ht hmem] at h
        rcases ih _ _ h with ⟨hp, hq⟩
        refine ⟨?_, ?_⟩
        · rw [hp, specTenantPasses_cons _ _ _ _ htget, if_pos hmem]
        · rw [hq, specQueried_cons _ _ _ _ _ htget, if_pos hmem]
      · cases hsubs : secretsGet secrets t with
        | error e =>
          rw [fetchGo_cons_secrets_error _ _ _ _ _ _ _ _ _ _ ht hmem hsubs] at h
          exact Except.noConfusion h
        | ok subs =>
          cases hbody : processTenantSubs targets0 secrets group_by today api acct t subs with
          | error e =>
            rw [fetchGo_cons_body_error _ _ _ _ _ _ _ _ _ _ _ ht hmem hsubs hbody] at h
            exact Except.noConfusion h
          | ok body =>
            rw [fetchGo_cons_new _ _ _ _ _ _ _ _ _ _ _ ht hmem hsubs hbody] at h
            cases hrest : fetchGo targets0 secrets group_by today api rest
                (t :: processed) with
            | error e =>
              rw [hrest, exceptBind_error] at h
              exact Except.noConfusion h
            | ok restOut =>
              rw [hrest, exceptBind_ok] at h
              cases h
              rcases processTenantSubs_ok_inv _ _ _ _ _ _ _ _ _ hbody with ⟨hbp, hbq⟩
              rcases ih _ _ hrest with ⟨hp, hq⟩
              rcases secretsGet_ok_inv _ _ _ hsubs with ⟨p, hfind, hp2⟩
              refine ⟨?_, ?_⟩
              · rw [specTenantPasses_cons _ _ _ _ htget, if_neg hmem]
                simp [FetchOut.append, hbp, hp]
              · rw [specQueried_cons _ _ _ _ _ htget, if_neg hmem, hfind]
                simp [FetchOut.append, hbq, hq, hp2]

/-! ### Calendar lemmas -/


theorem daysBeforeMonth_succ (y m : Nat) (hm : m ≠ 0) :
    daysBeforeMonth y (m + 1) = daysBeforeMonth y m + daysInMonth y m := by
  simp only [daysBeforeMonth, hm, if_false]

theorem daysBeforeMonth_one (y : Nat) : daysBeforeMonth y 1 = 0 := by
  simp [daysBeforeMonth]

theorem daysBeforeMonth_twelve (z : Nat) :
    daysBeforeMonth z 12 = 334 + (if isLeap z then 1 else 0) := by
  rw [(by norm_num : (12:ℕ) = 11 + 1), daysBeforeMonth_succ _ _ (by norm_num),
    (by norm_num : (11:ℕ) = 10 + 1), daysBeforeMonth_succ _ _ (by norm_num),
    (by norm_num : (10:ℕ) = 9 + 1), daysBeforeMonth_succ _ _ (by norm_num),
    (by norm_num : (9:ℕ) = 8 + 1), daysBeforeMonth_succ _ _ (by norm_num),
    (by norm_num : (8:ℕ) = 7 + 1), daysBeforeMonth_succ _ _ (by norm_num),
    (by norm_num : (7:ℕ) = 6 + 1), daysBeforeMonth_succ _ _ (by norm_num),
    (by norm_num : (6:ℕ) = 5 + 1), daysBeforeMonth_succ _ _ (by norm_num),
    (by norm_num : (5:ℕ) = 4 + 1), daysBeforeMonth_succ _ _ (by norm_num),
    (by norm_num : (4:ℕ) = 3 + 1), daysBeforeMonth_succ _ _ (by norm_num),
    (by norm_num : (3:ℕ) = 2 + 1), daysBeforeMonth_succ _ _ (by norm_num),
    (by norm_num : (2:ℕ) = 1 + 1), daysBeforeMonth_succ _ _ (by norm_num),
    daysBeforeMonth_one]
  simp only [daysInMonth]
  norm_num
  split <;> omega

theorem isLeap_iff (z : Nat) :
    isLeap z = true ↔ ((z % 4 = 0 ∧ z % 100 ≠ 0) ∨ z % 400 = 0) := by
  unfold isLeap
  simp [Bool.or_eq_true, Bool.and_eq_true, beq_iff_eq, bne_iff_ne]

theorem leapsBefore_succ (y : Nat) (hy : 2 ≤ y) :
    leapsBefore y = leapsBefore (y - 1) + (if isLeap (y - 1) then 1 else 0) := by
  unfold leapsBefore
  by_cases h : isLeap (y - 1) = true
  · rw [if_pos h, isLeap_iff] at *
    omega
  · rw [if_neg h]
    rw [isLeap_iff] at h
    push_neg at h
    omega

theorem prevDay_dateToDays (d : Date) (hv : d.valid) (hy : 2 ≤ d.year) :
    dateToDays (prevDay d) + 1 = dateToDays d := by
  obtain ⟨hm1, hm12, hd1, hdm⟩ := hv
  unfold prevDay
  split
  · unfold dateToDays
    simp only
    omega
  · split
    · rename_i hday hmon
      unfold dateToDays
      simp only
      obtain ⟨k, hk⟩ : ∃ k, d.month = k + 1 := ⟨d.month - 1, by omega⟩
      have hk0 : k ≠ 0 := by omega
      rw [hk, daysBeforeMonth_succ _ _ hk0]
      simp only [Nat.add_sub_cancel]
      omega
    · rename_i hday hmon
      have hm : d.month = 1 := by omega
      have hd : d.day = 1 := by omega
      unfold dateToDays
      simp only
      rw [hm, hd, daysBeforeMonth_one, daysBeforeMonth_twelve,
        leapsBefore_succ _ hy]
      have h31 : daysInMonth (d.year - 1) 12 * 0 = 0 := by ring
      split <;> omega

/-! ### Claims C3, C8, C10 -/


theorem pyDictUpdate_chargeType (acct : Dict)
    (hct : ∀ p ∈ acct, p.1 ≠ "ChargeType") (hnd : (acct.map Prod.fst).Nodup) :
    pyDictUpdate [("ChargeType", "ActualCost")] acct = ("ChargeType", "ActualCost") :: acct := by
  rw [pyDictUpdate_append _ _ hnd]
  · rfl
  · intro p hp q hq
    have : q = ("ChargeType", "ActualCost") := by simpa using hq
    subst this
    exact fun hc => hct p hp hc.symm

/-- C3: with grouping and merge-minor enabled, a row with cost at or above
the threshold is emitted once with its own collected group label values;
a row with cost strictly below the threshold is never emitted with its own
group values — its only possible write carries every group label set to the
merge tag value. -/
theorem c3_threshold_boundary (group_by : GroupBy) (acct : Dict) (row : List RVal)
    (cost : ℚ) (gkv : Dict) (hen : group_by.enabled = true)
    (hmen : group_by.merge_minor_cost.enabled = true)
    (h0 : row.get? 0 = some (.num cost))
    (hc : collectGroupValues group_by.groups 2 row [] = .ok gkv) :
    (group_by.merge_minor_cost.threshold ≤ cost →
      expose_metrics group_by acct row =
        .ok [(pyDictUpdate (pyDictUpdate [("ChargeType", "ActualCost")] acct) gkv, cost)]) ∧
    (cost < group_by.merge_minor_cost.threshold →
      expose_metrics group_by acct row =
        .ok (if 0 < cost then
          [(pyDictUpdate (pyDictUpdate [("ChargeType", "ActualCost")] acct)
              (tagDict group_by), cost)]
        else []) ∧
      ∀ g ∈ group_by.groups,
        pyDictGet (pyDictUpdate (pyDictUpdate [("ChargeType", "ActualCost")] acct)
            (tagDict group_by)) g.label_name =
          some group_by.merge_minor_cost.tag_value) := by
  have key := expose_metrics_grouped group_by acct row cost gkv hen h0 hc
  constructor
  · intro hge
    rw [key, if_neg (fun hand => absurd hand.2 (not_lt.mpr hge))]
  · intro hlt
    refine ⟨?_, ?_⟩
    · rw [key, if_pos ⟨hmen, hlt⟩]
      split <;> rfl
    · intro g hg
      exact pyDictGet_update_tagDict group_by _ g hg

/-- Witness for C3 at a concrete configuration: cost 5 is exactly the
threshold and is emitted with its own group value; cost 2 is below and only
the tag-valued write can occur. -/
theorem c3_threshold_boundary_witness :
    (gbMerge.merge_minor_cost.threshold ≤ 5 →
      expose_metrics gbMerge acctProd [.num 5, .num 20240101, .str "A"] =
        .ok [(pyDictUpdate (pyDictUpdate [("ChargeType", "ActualCost")] acctProd)
          [("Team", "A")], 5)]) ∧
    ((2 : ℚ) < gbMerge.merge_minor_cost.threshold →
      expose_metrics gbMerge acctProd [.num 2, .num 20240101, .str "A"] =
        .ok (if (0:ℚ) < 2 then
          [(pyDictUpdate (pyDictUpdate [("ChargeType", "ActualCost")] acctProd)
              (tagDict gbMerge), 2)]
        else []) ∧
      ∀ g ∈ gbMerge.groups,
        pyDictGet (pyDictUpdate (pyDictUpdate [("ChargeType", "ActualCost")] acctProd)
            (tagDict gbMerge)) g.label_name = some gbMerge.merge_minor_cost.tag_value) := by
  constructor
  · exact (c3_threshold_boundary gbMerge acctProd [.num 5, .num 20240101, .str "A"] 5
      [("Team", "A")] rfl rfl rfl (by rfl)).1
  · exact (c3_threshold_boundary gbMerge acctProd [.num 2, .num 20240101, .str "A"] 2
      [("Team", "A")] rfl rfl rfl (by rfl)).2

/-- C8: with grouping disabled, every date-qualifying row is emitted exactly
once, with label set the owning account's pairs plus
`ChargeType = "ActualCost"` and value the row's first element as a float. -/
theorem c8_no_grouping_single_point (group_by : GroupBy) (acct : Dict)
    (hgb : group_by.enabled = false)
    (hct : ∀ p ∈ acct, p.1 ≠ "ChargeType") (hnd : (acct.map Prod.fst).Nodup) :
    (∀ (row : List RVal) (c : ℚ), row.get? 0 = some (.num c) →
      expose_metrics group_by acct row = .ok [(("ChargeType", "ActualCost") :: acct, c)]) ∧
    (∀ (dateKey : Nat) (rows : List (List RVal)) (es : List (Dict × ℚ)),
      processRows group_by acct dateKey rows = .ok es →
      es.length = (rows.filter (rowMatches dateKey)).length) := by
  constructor
  · intro row c h0
    rw [expose_metrics_disabled group_by acct row c hgb h0,
      pyDictUpdate_chargeType acct hct hnd]
  · intro dateKey rows es h
    exact processRows_disabled_length group_by acct dateKey rows es hgb h

/-- Witness for C8: the spec's own example row `[12, 20240101]` produces the
single point with the account labels, `ChargeType`, and value 12. -/
theorem c8_no_grouping_single_point_witness :
    (expose_metrics gbOff acctProd [.num 12, .num 20240101] =
      .ok [(("ChargeType", "ActualCost") :: acctProd, 12)]) ∧
    (∀ (es : List (Dict × ℚ)),
      processRows gbOff acctProd 20240101 [[.num 12, .num 20240101], [.num 9, .num 20231231]] =
        .ok es →
      es.length = ([[.num 12, .num 20240101], [.num 9, .num 20231231]].filter
        (rowMatches 20240101)).length) := by
  have h := c8_no_grouping_single_point gbOff acctProd rfl (by decide) (by decide)
  exact ⟨h.1 [.num 12, .num 20240101] 12 rfl, fun es hes => h.2 20240101 _ es hes⟩

/-- C10: only provider HTTP errors are handled per subscription.  A
date-qualifying row shorter than `2 + |groups|` raises `IndexError` even
when its cost is below the merge threshold (group values are read before
the merge test); a non-numeric cost raises `ValueError`; any such error
propagates out of the subscription loop and aborts the whole fetch cycle. -/
theorem c10_non_http_aborts_cycle :
    (∀ (group_by : GroupBy) (acct : Dict) (row : List RVal) (cost : ℚ) (g : Group)
      (gs : List Group), group_by.groups = g :: gs → group_by.enabled = true →
      group_by.merge_minor_cost.enabled = true → row.get? 0 = some (.num cost) →
      cost < group_by.merge_minor_cost.threshold → row.get? 2 = none →
      expose_metrics group_by acct row = .error .indexError) ∧
    (∀ (group_by : GroupBy) (acct : Dict) (row : List RVal) (s : String),
      row.get? 0 = some (.str s) →
      expose_metrics group_by acct row =
        .error (.valueError ("could not convert string to float: " ++ s))) ∧
    (∀ (targets : List Dict) (secrets : List (String × List Cred)) (group_by : GroupBy)
      (today : Date) (api : Api) (azure_account : Dict) (tenant_id : String) (s : Cred)
      (c : Cred) (rows : List (List RVal)) (e : PyErr),
      init_azure_client secrets tenant_id s.SubscriptionId = .ok c →
      api ("/subscriptions/" ++ s.SubscriptionId)
          (buildQueryDefinition group_by (prevDay today) today) = .ok rows →
      processRows group_by (resolveAccount targets azure_account s.SubscriptionId)
          (dateInt (prevDay today)) rows = .error e →
      (∀ reason, e ≠ .httpResponseError reason) →
      processSub targets secrets group_by today api azure_account tenant_id s = .error e) ∧
    (∀ (targets : List Dict) (secrets : List (String × List Cred)) (group_by : GroupBy)
      (today : Date) (api : Api) (azure_account : Dict) (tenant_id : String)
      (pre post : List Cred) (s : Cred) (a : FetchOut) (e : PyErr),
      processTenantSubs targets secrets group_by today api azure_account tenant_id pre = .ok a →
      processSub targets secrets group_by today api azure_account tenant_id s = .error e →
      processTenantSubs targets secrets group_by today api azure_account tenant_id
        (pre ++ s :: post) = .error e) ∧
    (∀ (targets0 : List Dict) (secrets : List (String × List Cred)) (group_by : GroupBy)
      (today : Date) (api : Api) (acct : Dict) (rest : List Dict) (processed : List String)
      (t : String) (subs : List Cred) (e : PyErr),
      dictGetE acct "TenantId" = .ok t → t ∉ processed → secretsGet secrets t = .ok subs →
      processTenantSubs targets0 secrets group_by today api acct t subs = .error e →
      fetchGo targets0 secrets group_by today api (acct :: rest) processed = .error e) := by
  refine ⟨?_, ?_, ?_, ?_, ?_⟩
  · intro group_by acct row cost g gs hgs hen hmen h0 hlt h2
    refine expose_metrics_collect_error group_by acct row cost _ hen h0 ?_
    rw [hgs]
    exact collectGroupValues_short g gs 2 row [] h2
  · intro group_by acct row s h0
    exact expose_metrics_badcost group_by acct row s h0
  · intro targets secrets group_by today api azure_account tenant_id s c rows e
      hinit hapi hrows hnothttp
    exact processSub_rows_error targets secrets group_by today api azure_account tenant_id
      s c rows e hinit hapi hrows hnothttp
  · intro targets secrets group_by today api azure_account tenant_id pre post s a e ha hs
    rw [processTenantSubs_append, ha, exceptBind_ok, processTenantSubs_cons, hs,
      exceptBind_error, exceptBind_error]
  · intro targets0 secrets group_by today api acct rest processed t subs e ht hmem hsubs hbody
    exact fetchGo_cons_body_error targets0 secrets group_by today api acct rest processed
      t subs e ht hmem hsubs hbody

/-- Witness for C10: a two-element below-threshold row under one configured
group raises `IndexError`, and the whole cycle aborts with it. -/
theorem c10_non_http_aborts_cycle_witness :
    (expose_metrics gbMerge acctProd [.num 2, .num 20240101] = .error .indexError) ∧
    (expose_metrics gbMerge acctProd [.str "oops", .num 20240101] =
      .error (.valueError "could not convert string to float: oops")) ∧
    (fetchGo [acctProd] secretsOne gbMerge todayJan2
      (fun _ _ => .ok [[.num 2, .num 20240101]]) [acctProd] [] = .error .indexError) := by
  refine ⟨?_, ?_, ?_⟩
  · exact c10_non_http_aborts_cycle.1 gbMerge acctProd [.num 2, .num 20240101] 2
      ⟨"TagKey", "Team", "Team"⟩ [] rfl rfl rfl rfl (by decide) rfl
  · exact c10_non_http_aborts_cycle.2.1 gbMerge acctProd [.str "oops", .num 20240101] "oops" rfl
  · refine c10_non_http_aborts_cycle.2.2.2.2 [acctProd] secretsOne gbMerge todayJan2
      (fun _ _ => .ok [[.num 2, .num 20240101]]) acctProd [] [] "T1" [credS1] .indexError
      rfl (by simp) rfl ?_
    rw [show ([credS1] : List Cred) = [] ++ credS1 :: [] from rfl]
    refine c10_non_http_aborts_cycle.2.2.2.1 [acctProd] secretsOne gbMerge todayJan2
      (fun _ _ => .ok [[.num 2, .num 20240101]]) acctProd "T1" [] [] credS1
      FetchOut.empty .indexError rfl ?_
    refine c10_non_http_aborts_cycle.2.2.1 [acctProd] secretsOne gbMerge todayJan2
      (fun _ _ => .ok [[.num 2, .num 20240101]]) acctProd "T1" credS1 credS1
      [[.num 2, .num 20240101]] .indexError rfl rfl ?_ (by intro r hc; cases hc)
    rw [show dateInt (prevDay todayJan2) = 20240101 from rfl]
    rw [processRows_cons_take gbMerge _ 20240101 [.num 2, .num 20240101] [] (.num 20240101)
      rfl (by decide)]
    rw [c10_non_http_aborts_cycle.1 gbMerge _ [.num 2, .num 20240101] 2
      ⟨"TagKey", "Team", "Team"⟩ [] rfl rfl rfl rfl (by decide) rfl]
    rfl

/-! ### Claims C2 and C4 -/


/-- Counterexample to C2 as stated: with today = 2024-01-02 the query's end
date is 2024-01-02, yet the row dated 20240102 is discarded and the row
dated 20240101 (the start date) is the one mapped into a metric. -/
theorem c2_counterexample :
    fetch [acctProd] secretsOne gbOff todayJan2 apiC2 =
      .ok ⟨[(labelsBase, 7)], [], [("T1", acctProd)], [("T1", "S1")]⟩ ∧
    dateInt todayJan2 = 20240102 ∧
    (12 : ℚ) ∉ [(labelsBase, (7 : ℚ))].map Prod.snd := by
  refine ⟨by rfl, by rfl, by decide⟩

/-- C2 (amended): only rows whose date field equals the query's start date
(one day before the end date) are mapped into metrics; rows with any other
date are discarded — a fetch behaves exactly as if the billing API had
returned only the rows matching `int(start_date.strftime("%Y%m%d"))`. -/
theorem c2_amended_start_date_filter (targets : List Dict)
    (secrets : List (String × List Cred)) (group_by : GroupBy) (today : Date) (api : Api)
    (azure_account : Dict) (tenant_id : String) (s : Cred) (c : Cred)
    (rows : List (List RVal))
    (hinit : init_azure_client secrets tenant_id s.SubscriptionId = .ok c)
    (hapi : api ("/subscriptions/" ++ s.SubscriptionId)
        (buildQueryDefinition group_by (prevDay today) today) = .ok rows)
    (hdates : ∀ r ∈ rows, (r.get? 1).isSome) :
    processSub targets secrets group_by today api azure_account tenant_id s =
      processSub targets secrets group_by today
        (fun _ _ => .ok (rows.filter (rowMatches (dateInt (prevDay today)))))
        azure_account tenant_id s := by
  have hpr := processRows_filter group_by
    (resolveAccount targets azure_account s.SubscriptionId) (dateInt (prevDay today))
    rows hdates
  unfold processSub query_azure_cost_explorer
  simp only [hinit, exceptBind_ok, hapi, hpr]

/-- Witness for the amended C2 at the concrete two-row response. -/
theorem c2_amended_start_date_filter_witness :
    processSub [acctProd] secretsOne gbOff todayJan2 apiC2 acctProd "T1" credS1 =
      processSub [acctProd] secretsOne gbOff todayJan2
        (fun _ _ => .ok ([[.num 12, .num 20240102], [.num 7, .num 20240101]].filter
          (rowMatches (dateInt (prevDay todayJan2)))))
        acctProd "T1" credS1 :=
  c2_amended_start_date_filter [acctProd] secretsOne gbOff todayJan2 apiC2 acctProd "T1"
    credS1 credS1 [[.num 12, .num 20240102], [.num 7, .num 20240101]]
    (by rfl) (by rfl) (by decide)

/-- Counterexample to C4 as stated: subscription S9 is declared by no target
account, yet the emitted point's `EnvironmentName` is the tenant's base
account value "prod", not the sentinel "DefaultEnv". -/
theorem c4_counterexample :
    fetch [acctProd] secretsC4 gbOff todayJan2 apiC4 =
      .ok ⟨[(labelsS9, 7)], [], [("T1", acctProd)], [("T1", "S1"), ("T1", "S9")]⟩ ∧
    (∀ t ∈ [acctProd], ¬ (pyDictGet t "Subscription").getD "" = "S9") ∧
    pyDictGet labelsS9 "EnvironmentName" = some "prod" ∧
    "prod" ≠ "DefaultEnv" := by
  refine ⟨by rfl, by decide, by rfl, by decide⟩

/-- C4 (amended): `EnvironmentName` is taken from the first target account
in original list order whose `Subscription` equals the subscription id,
defaulting to "DefaultEnv" only when that matching account lacks the key;
when no target account declares the subscription, the working account keeps
the `EnvironmentName` inherited from the tenant's base account (no
sentinel is applied). -/
theorem c4_amended_env_resolution (targets ts1 ts2 : List Dict) (t acct : Dict)
    (sid : String) :
    (targets = ts1 ++ t :: ts2 →
      (∀ t2 ∈ ts1, ¬ (pyDictGet t2 "Subscription").getD "" = sid) →
      (pyDictGet t "Subscription").getD "" = sid →
      resolveAccount targets acct sid =
        pyDictSet (pyDictSet acct "Subscription" sid) "EnvironmentName"
          ((pyDictGet t "EnvironmentName").getD "DefaultEnv")) ∧
    ((∀ t2 ∈ targets, ¬ (pyDictGet t2 "Subscription").getD "" = sid) →
      resolveAccount targets acct sid = pyDictSet acct "Subscription" sid ∧
      pyDictGet (resolveAccount targets acct sid) "EnvironmentName" =
        pyDictGet acct "EnvironmentName") := by
  constructor
  · intro htgt h1 hmatch
    subst htgt
    unfold resolveAccount
    rw [List.find?_append]
    have hnone : ts1.find? (fun t2 => (pyDictGet t2 "Subscription").getD "" = sid) = none := by
      rw [List.find?_eq_none]
      intro x hx
      simpa using h1 x hx
    rw [hnone, List.find?_cons_of_pos _ (by simpa using hmatch)]
    simp
  · intro hall
    have hf : targets.find? (fun t2 => (pyDictGet t2 "Subscription").getD "" = sid) = none := by
      rw [List.find?_eq_none]
      intro x hx
      simpa using hall x hx
    unfold resolveAccount
    rw [hf]
    refine ⟨rfl, ?_⟩
    exact pyDictGet_set_ne acct "Subscription" sid "EnvironmentName" (by decide)

/-- Witness for the amended C4: the first matching account wins for S1, and
for the undeclared S9 the environment name is inherited unchanged. -/
theorem c4_amended_env_resolution_witness :
    (resolveAccount [acctDev, acctProd, acctT2] acctDev "S1" =
      pyDictSet (pyDictSet acctDev "Subscription" "S1") "EnvironmentName"
        ((pyDictGet acctProd "EnvironmentName").getD "DefaultEnv")) ∧
    (resolveAccount [acctProd] acctProd "S9" = pyDictSet acctProd "Subscription" "S9" ∧
      pyDictGet (resolveAccount [acctProd] acctProd "S9") "EnvironmentName" =
        pyDictGet acctProd "EnvironmentName") := by
  constructor
  · exact (c4_amended_env_resolution [acctDev, acctProd, acctT2] [acctDev] [acctT2]
      acctProd acctDev "S1").1 rfl (by decide) (by decide)
  · exact (c4_amended_env_resolution [acctProd] [] [] acctProd acctProd "S9").2 (by decide)

/-! ### Claims C1, C5, C7 -/


/-- C1 evaluated at the failing input: two below-threshold rows (2 and 3,
threshold 5).  The code emits one tag-labelled point per row, immediately,
each carrying only that row's cost; the registry is left at 3, the last
row's cost, not at the accumulated sum 5 that a single post-loop aggregate
would produce. -/
theorem c1_per_row_merge_flush :
    fetch [acctProd] secretsOne gbMerge todayJan2 apiC1 =
      .ok ⟨[(labelsOther, 2), (labelsOther, 3)], [], [("T1", acctProd)], [("T1", "S1")]⟩ ∧
    runRegistry [(labelsOther, 2), (labelsOther, 3)] = [(canonLabels labelsOther, 3)] ∧
    (2 : ℚ) + 3 = 5 ∧ (3 : ℚ) ≠ 5 := by
  refine ⟨by rfl, by rfl, by norm_num, by norm_num⟩

/-- C5: a billing-API failure on one subscription is caught, logged as
(subscription, reason), and the cycle goes on: the subscription loop
composes the failing subscription's log-only outcome with the outcomes of
the subscriptions before and after it, and the tenant loop composes a
tenant's outcome with the remaining tenants' outcomes. -/
theorem c5_http_error_isolated :
    (∀ (targets : List Dict) (secrets : List (String × List Cred)) (group_by : GroupBy)
      (today : Date) (api : Api) (azure_account : Dict) (tenant_id : String)
      (s : Cred) (c : Cred) (reason : String),
      init_azure_client secrets tenant_id s.SubscriptionId = .ok c →
      api ("/subscriptions/" ++ s.SubscriptionId)
          (buildQueryDefinition group_by (prevDay today) today) =
        .error (.httpResponseError reason) →
      processSub targets secrets group_by today api azure_account tenant_id s =
        .ok ⟨[], [(s.SubscriptionId, reason)], [], [(tenant_id, s.SubscriptionId)]⟩) ∧
    (∀ (targets : List Dict) (secrets : List (String × List Cred)) (group_by : GroupBy)
      (today : Date) (api : Api) (azure_account : Dict) (tenant_id : String)
      (pre post : List Cred) (s : Cred) (a b cpost : FetchOut),
      processTenantSubs targets secrets group_by today api azure_account tenant_id pre =
        .ok a →
      processSub targets secrets group_by today api azure_account tenant_id s = .ok b →
      processTenantSubs targets secrets group_by today api azure_account tenant_id post =
        .ok cpost →
      processTenantSubs targets secrets group_by today api azure_account tenant_id
        (pre ++ s :: post) = .ok (a.append (b.append cpost))) ∧
    (∀ (targets0 : List Dict) (secrets : List (String × List Cred)) (group_by : GroupBy)
      (today : Date) (api : Api) (acct : Dict) (rest : List Dict) (processed : List String)
      (t : String) (subs : List Cred) (body restOut : FetchOut),
      dictGetE acct "TenantId" = .ok t → t ∉ processed → secretsGet secrets t = .ok subs →
      processTenantSubs targets0 secrets group_by today api acct t subs = .ok body →
      fetchGo targets0 secrets group_by today api rest (t :: processed) = .ok restOut →
      fetchGo targets0 secrets group_by today api (acct :: rest) processed =
        .ok (FetchOut.append ⟨[], [], [(t, acct)], []⟩ (body.append restOut))) := by
  refine ⟨?_, ?_, ?_⟩
  · intro targets secrets group_by today api azure_account tenant_id s c reason hinit hapi
    exact processSub_http targets secrets group_by today api azure_account tenant_id
      s c reason hinit hapi
  · intro targets secrets group_by today api azure_account tenant_id pre post s a b cpost
      ha hs hpost
    rw [processTenantSubs_append, ha, exceptBind_ok, processTenantSubs_cons, hs,
      exceptBind_ok, hpost, exceptBind_ok]
    simp [pure, Except.pure, exceptBind_ok]
  · intro targets0 secrets group_by today api acct rest processed t subs body restOut
      ht hmem hsubs hbody hrest
    rw [fetchGo_cons_new targets0 secrets group_by today api acct rest processed t subs
      body ht hmem hsubs hbody, hrest, exceptBind_ok]
    rfl

/-- Witness for C5 at a concrete two-tenant configuration where the billing
API fails on subscription S2 of tenant T1: S2 contributes only a log entry,
S1 and S3 of the same tenant and S4 of tenant T2 are still processed. -/
theorem c5_http_error_isolated_witness :
    (processSub [acctProd, acctT2] secretsC5 gbOff todayJan2 apiC5 acctProd "T1" credS2 =
      .ok ⟨[], [("S2", "boom")], [], [("T1", "S2")]⟩) ∧
    (processTenantSubs [acctProd, acctT2] secretsC5 gbOff todayJan2 apiC5 acctProd "T1"
        ([credS1] ++ credS2 :: [credS3]) =
      .ok ((⟨[], [], [], [("T1", "S1")]⟩ : FetchOut).append
        ((⟨[], [("S2", "boom")], [], [("T1", "S2")]⟩ : FetchOut).append
          ⟨[], [], [], [("T1", "S3")]⟩))) ∧
    (fetchGo [acctProd, acctT2] secretsC5 gbOff todayJan2 apiC5 [acctProd, acctT2] [] =
      .ok (FetchOut.append ⟨[], [], [("T1", acctProd)], []⟩
        ((⟨[], [("S2", "boom")], [], [("T1", "S1"), ("T1", "S2"), ("T1", "S3")]⟩ :
            FetchOut).append
          ⟨[], [], [("T2", acctT2)], [("T2", "S4")]⟩))) := by
  refine ⟨?_, ?_, ?_⟩
  · exact c5_http_error_isolated.1 [acctProd, acctT2] secretsC5 gbOff todayJan2 apiC5
      acctProd "T1" credS2 credS2 "boom" (by rfl) (by rfl)
  · exact c5_http_error_isolated.2.1 [acctProd, acctT2] secretsC5 gbOff todayJan2 apiC5
      acctProd "T1" [credS1] [credS3] credS2 ⟨[], [], [], [("T1", "S1")]⟩
      ⟨[], [("S2", "boom")], [], [("T1", "S2")]⟩ ⟨[], [], [], [("T1", "S3")]⟩
      (by rfl) (by rfl) (by rfl)
  · exact c5_http_error_isolated.2.2 [acctProd, acctT2] secretsC5 gbOff todayJan2 apiC5
      acctProd [acctT2] [] "T1" [credS1, credS2, credS3]
      ⟨[], [("S2", "boom")], [], [("T1", "S1"), ("T1", "S2"), ("T1", "S3")]⟩
      ⟨[], [], [("T2", acctT2)], [("T2", "S4")]⟩ (by rfl) (by simp) (by rfl)
      (by rfl) (by rfl)

/-- C7: in a successful fetch cycle each tenant is processed exactly once,
at its first target account in declaration order (the `passes` trace), and
during that single pass every subscription of the tenant's credential list
is attempted (the `queried` trace). -/
theorem c7_tenant_dedup (targets : List Dict) (secrets : List (String × List Cred))
    (group_by : GroupBy) (today : Date) (api : Api) (out : FetchOut)
    (h : fetch targets secrets group_by today api = .ok out) :
    out.passes = specTenantPasses targets [] ∧
      out.queried = specQueried secrets targets [] :=
  fetchGo_ok_trace targets secrets group_by today api targets [] out h

/-- Witness for C7: two target accounts of the same tenant give one pass
keyed off the first account, with both subscriptions queried. -/
theorem c7_tenant_dedup_witness :
    (⟨[], [], [("T1", acctProd)], [("T1", "S1"), ("T1", "S2")]⟩ : FetchOut).passes =
        specTenantPasses [acctProd, acctDev] [] ∧
    (⟨[], [], [("T1", acctProd)], [("T1", "S1"), ("T1", "S2")]⟩ : FetchOut).queried =
        specQueried secretsTwo [acctProd, acctDev] [] :=
  c7_tenant_dedup [acctProd, acctDev] secretsTwo gbOff todayJan2 apiEmpty
    ⟨[], [], [("T1", acctProd)], [("T1", "S1"), ("T1", "S2")]⟩ (by rfl)

/-! ### Claim C6 -/


/-- C6: credential resolution returns the first matching record exactly
when the tenant is present and some record matches the subscription id, and
errors exactly when the tenant is absent (`KeyError`) or no record matches
(`ValueError`); such an error is not caught anywhere in the fetch cycle —
it aborts the subscription loop and the whole cycle rather than skipping
the subscription. -/
theorem c6_credential_resolution :
    (∀ (secrets : List (String × List Cred)) (t sid : String) (c : Cred),
      init_azure_client secrets t sid = .ok c ↔
        ∃ p, secrets.find? (fun q => q.1 = t) = some p ∧
          p.2.find? (fun s2 => s2.SubscriptionId = sid) = some c) ∧
    (∀ (secrets : List (String × List Cred)) (t sid : String),
      (∃ e, init_azure_client secrets t sid = .error e) ↔
        (secrets.find? (fun q => q.1 = t) = none ∨
          ∃ p, secrets.find? (fun q => q.1 = t) = some p ∧
            p.2.find? (fun s2 => s2.SubscriptionId = sid) = none)) ∧
    (∀ (targets : List Dict) (secrets : List (String × List Cred)) (group_by : GroupBy)
      (today : Date) (api : Api) (azure_account : Dict) (tenant_id : String) (s : Cred)
      (e : PyErr),
      init_azure_client secrets tenant_id s.SubscriptionId = .error e →
      processSub targets secrets group_by today api azure_account tenant_id s = .error e) ∧
    (∀ (targets : List Dict) (secrets : List (String × List Cred)) (group_by : GroupBy)
      (today : Date) (api : Api) (azure_account : Dict) (tenant_id : String)
      (pre post : List Cred) (s : Cred) (a : FetchOut) (e : PyErr),
      processTenantSubs targets secrets group_by today api azure_account tenant_id pre =
        .ok a →
      processSub targets secrets group_by today api azure_account tenant_id s = .error e →
      processTenantSubs targets secrets group_by today api azure_account tenant_id
        (pre ++ s :: post) = .error e) ∧
    (∀ (secrets : List (String × List Cred)) (group_by : GroupBy) (today : Date)
      (api : Api) (acct : Dict) (rest : List Dict) (t : String),
      pyDictGet acct "TenantId" = some t →
      secrets.find? (fun p => p.1 = t) = none →
      fetch (acct :: rest) secrets group_by today api = .error (.keyError t)) := by
  refine ⟨?_, ?_, ?_, ?_, ?_⟩
  · intro secrets t sid c
    unfold init_azure_client secretsGet
    cases hf : secrets.find? (fun q => q.1 = t) with
    | none => simp [exceptBind_error]
    | some p =>
      cases hg : p.2.find? (fun s2 => s2.SubscriptionId = sid) with
      | none => simp [exceptBind_ok, hg]
      | some cr => simp [exceptBind_ok, hg]
  · intro secrets t sid
    unfold init_azure_client secretsGet
    cases hf : secrets.find? (fun q => q.1 = t) with
    | none => simp [exceptBind_error]
    | some p =>
      cases hg : p.2.find? (fun s2 => s2.SubscriptionId = sid) with
      | none =>
        simp only [exceptBind_ok, hg]
        simp
        intro x hx
        have := List.find?_eq_none.mp hg x hx
        simpa using this
      | some cr =>
        simp only [exceptBind_ok, hg]
        simp
        exact ⟨cr, List.mem_of_find?_eq_some hg, by simpa using List.find?_some hg⟩
  · intro targets secrets group_by today api azure_account tenant_id s e hinit
    exact processSub_init_error targets secrets group_by today api azure_account
      tenant_id s e hinit
  · intro targets secrets group_by today api azure_account tenant_id pre post s a e ha hs
    rw [processTenantSubs_append, ha, exceptBind_ok, processTenantSubs_cons, hs,
      exceptBind_error, exceptBind_error]
  · intro secrets group_by today api acct rest t ht hf
    unfold fetch
    refine fetchGo_cons_secrets_error (acct :: rest) secrets group_by today api acct rest
      [] t (.keyError t) ?_ (by simp) ?_
    · unfold dictGetE
      rw [ht]
    · unfold secretsGet
      rw [hf]

/-- Witness for C6: resolution succeeds for a configured pair, errors for a
missing tenant, and that error aborts the subscription and the cycle. -/
theorem c6_credential_resolution_witness :
    (init_azure_client secretsC5 "T1" "S2" = .ok credS2 ↔
      ∃ p, secretsC5.find? (fun q => q.1 = "T1") = some p ∧
        p.2.find? (fun s2 => s2.SubscriptionId = "S2") = some credS2) ∧
    (processSub [acctT9] secretsOne gbOff todayJan2 apiEmpty acctT9 "T9" credS1 =
      .error (.keyError "T9")) ∧
    (fetch [acctT9] secretsOne gbOff todayJan2 apiEmpty = .error (.keyError "T9")) := by
  refine ⟨?_, ?_, ?_⟩
  · exact c6_credential_resolution.1 secretsC5 "T1" "S2" credS2
  · exact c6_credential_resolution.2.2.1 [acctT9] secretsOne gbOff todayJan2 apiEmpty
      acctT9 "T9" credS1 (.keyError "T9") (by rfl)
  · exact c6_credential_resolution.2.2.2.2 secretsOne gbOff todayJan2 apiEmpty
      acctT9 [] "T9" (by rfl) (by rfl)

/-! ### Claim C9 -/


/-- C9: every built cost query requests "ActualCost", daily granularity,
the single sum-of-CostUSD aggregation, and (iff grouping is enabled) one
grouping dimension per configured group in order; its endpoints are the
midnight-UTC truncations of the start and end dates.  The fetch window is
one day: for valid dates the start (previous day) is exactly one day before
the end ("today").  Group `j`'s value is read from row offset `2 + j`, and
a fetch consults the billing API only at the subscription's scope with
exactly this query. -/
theorem c9_query_construction :
    (∀ (group_by : GroupBy) (sd ed : Date),
      (buildQueryDefinition group_by sd ed).type = "ActualCost" ∧
      (buildQueryDefinition group_by sd ed).timeframe = "Custom" ∧
      (buildQueryDefinition group_by sd ed).dataset.granularity = "Daily" ∧
      (buildQueryDefinition group_by sd ed).dataset.aggregation =
        [("totalCostUSD", ⟨"CostUSD", "Sum"⟩)] ∧
      (group_by.enabled = true →
        (buildQueryDefinition group_by sd ed).dataset.grouping =
          group_by.groups.map (fun g => (g.type, g.name))) ∧
      (group_by.enabled = false →
        (buildQueryDefinition group_by sd ed).dataset.grouping = []) ∧
      (buildQueryDefinition group_by sd ed).time_period.from_property =
        ⟨sd.year, sd.month, sd.day, 0, 0, 0⟩ ∧
      (buildQueryDefinition group_by sd ed).time_period.to_property =
        ⟨ed.year, ed.month, ed.day, 0, 0, 0⟩) ∧
    (∀ today : Date, today.valid → 2 ≤ today.year →
      dateToDays (prevDay today) + 1 = dateToDays today) ∧
    (∀ (gs : List Group) (row : List RVal) (gkv : Dict) (j : Nat) (hj : j < gs.length)
      (v : RVal),
      collectGroupValues gs 2 row [] = .ok gkv →
      row.get? (2 + j) = some v →
      (∀ g2 ∈ gs.drop (j + 1), g2.label_name ≠ (gs.get ⟨j, hj⟩).label_name) →
      pyDictGet gkv (gs.get ⟨j, hj⟩).label_name = some (rvalStr v)) ∧
    (∀ (targets : List Dict) (secrets : List (String × List Cred)) (group_by : GroupBy)
      (today : Date) (api api2 : Api) (azure_account : Dict) (tenant_id : String)
      (s : Cred),
      api ("/subscriptions/" ++ s.SubscriptionId)
          (buildQueryDefinition group_by (prevDay today) today) =
        api2 ("/subscriptions/" ++ s.SubscriptionId)
          (buildQueryDefinition group_by (prevDay today) today) →
      processSub targets secrets group_by today api azure_account tenant_id s =
        processSub targets secrets group_by today api2 azure_account tenant_id s) := by
  refine ⟨?_, ?_, ?_, ?_⟩
  · intro group_by sd ed
    refine ⟨rfl, rfl, rfl, rfl, ?_, ?_, rfl, rfl⟩
    · intro h
      simp [buildQueryDefinition, queryGroups, h]
    · intro h
      simp [buildQueryDefinition, queryGroups, h]
  · intro today hv hy
    exact prevDay_dateToDays today hv hy
  · intro gs row gkv j hj v hc hrow hlater
    exact collectGroupValues_lookup gs 2 row [] gkv hc j hj v hrow hlater
  · intro targets secrets group_by today api api2 azure_account tenant_id s h
    unfold processSub query_azure_cost_explorer
    simp only [h]

/-- Witness for C9: the leap-year boundary 2024-03-01 has 2024-02-29 as its
one-day-prior start date; a one-group query reads the group value at row
offset 2; and a fetch over two pointwise-agreeing APIs is identical. -/
theorem c9_query_construction_witness :
    (gbMerge.enabled = true →
      (buildQueryDefinition gbMerge ⟨2024, 2, 29⟩ ⟨2024, 3, 1⟩).dataset.grouping =
        gbMerge.groups.map (fun g => (g.type, g.name))) ∧
    (dateToDays (prevDay ⟨2024, 3, 1⟩) + 1 = dateToDays ⟨2024, 3, 1⟩) ∧
    (pyDictGet [("Team", "A")]
        (([⟨"TagKey", "Team", "Team"⟩] : List Group).get ⟨0, by decide⟩).label_name =
      some (rvalStr (.str "A"))) ∧
    (processSub [acctProd] secretsOne gbOff todayJan2 apiEmpty acctProd "T1" credS1 =
      processSub [acctProd] secretsOne gbOff todayJan2
        (fun _ _ => .ok ([] : List (List RVal))) acctProd "T1" credS1) := by
  refine ⟨?_, ?_, ?_, ?_⟩
  · exact ((c9_query_construction.1 gbMerge ⟨2024, 2, 29⟩ ⟨2024, 3, 1⟩).2.2.2.2).1
  · exact c9_query_construction.2.1 ⟨2024, 3, 1⟩ (by decide) (by norm_num)
  · exact c9_query_construction.2.2.1 [⟨"TagKey", "Team", "Team"⟩]
      [.num 2, .num 20240101, .str "A"] [("Team", "A")] 0 (by decide) (.str "A")
      (by rfl) (by rfl) (by decide)
  · exact c9_query_construction.2.2.2 [acctProd] secretsOne gbOff todayJan2 apiEmpty
      (fun _ _ => .ok ([] : List (List RVal))) acctProd "T1" credS1 (by rfl)

end AzureCostExporter
